import Mathlib

/-!
# Performance calculator `pp241007` (danser-go): a shallow embedding

Source: `app/rulesets/osu/performance/pp241007/pp.go`.

Numbers.  Go's `float64` is modelled by an arbitrary linearly ordered field `K`
with a floor function (`ℚ` for evaluation, `ℝ` for the analytic statements), so
the arithmetic is exact: rounding, infinities and NaN are not represented.  The
one place where they decide a branch, the test on the rounded aim/speed ratio, is
a parameter (`MathFns.streamsNerfBelow`), so the general statements hold for the
float64 outcome of that test; `streamsNerfBelowExact` is its exact reading, used
for the real-number instance.  The statements about the miss penalty keep to
inputs on which `totalHits` is not zero where it divides.  Go's `int` is modelled by `Int`; hit counts are far below `2^63`.

External functions.  `math.Pow`, `math.Log10` and the skill curve
`skills.DefaultDifficultyToPerformance` are taken as parameters (`MathFns`);
`realFns` instantiates the first two with the real power and logarithm.
-/

namespace PP241007

/-! ## Data model -/

/-- The modifiers queried by the calculator (`difficulty.Modifier` bits). -/
inductive Modifier where
  | Lazer
  | Classic
  | SpunOut
  | Hidden
  | Flashlight
  | Relax
  deriving DecidableEq, Repr

/-- The sub-configuration `difficulty.ClassicSettings`; only the flag read by the calculator. -/
structure ClassicSettings where
  NoSliderHeadAccuracy : Bool
  deriving DecidableEq, Repr

/-- The fields of `api.Attributes` read by the calculator. -/
structure Attributes (K : Type) where
  Aim : K
  Speed : K
  Flashlight : K
  Sliders : Int
  Circles : Int
  Spinners : Int
  ObjectCount : Int
  MaxCombo : Int

/-- The fields of `api.PerfScore` read by the calculator. -/
structure PerfScore (K : Type) where
  CountGreat : Int
  CountOk : Int
  CountMeh : Int
  CountMiss : Int
  MaxCombo : Int
  SliderEnd : Int
  SliderBreaks : Int
  Accuracy : K

/-- The part of `difficulty.Difficulty` read by the calculator: the two real
difficulty settings, the active modifier set and the optional classic settings. -/
structure Difficulty (K : Type) where
  ARReal : K
  ODReal : K
  Mods : Modifier → Bool
  classicConfig : Option ClassicSettings

/-- Query `diff.CheckModActive(mod)`. -/
def Difficulty.CheckModActive {K : Type} (diff : Difficulty K) (m : Modifier) : Bool :=
  diff.Mods m

/-- Query `diff.Mods.Active(mod)`; on a single modifier it agrees with `CheckModActive`. -/
def Difficulty.ModsActive {K : Type} (diff : Difficulty K) (m : Modifier) : Bool :=
  diff.Mods m

/-- Lookup `difficulty.GetModConfig[difficulty.ClassicSettings](diff)`: the value and the `ok` flag
as an option. -/
def GetModConfig {K : Type} (diff : Difficulty K) : Option ClassicSettings :=
  diff.classicConfig

/-- The result record `api.PPv2Results`. -/
structure PPv2Results (K : Type) where
  Aim : K
  Speed : K
  Acc : K
  Flashlight : K
  Total : K

/-- The receiver `PPv2` (pp.go lines 19-33).  The pointer `diff` is modelled by the value it points
to: `Calculate` reads it only after storing its own argument there. -/
structure PPv2 (K : Type) where
  attribs : Attributes K
  score : PerfScore K
  diff : Difficulty K
  effectiveMissCount : K
  totalHits : Int
  totalImperfectHits : Int
  countSliderEndsDropped : Int
  amountHitObjectsWithAccuracy : Int
  usingClassicSliderAccuracy : Bool

/-- The external numeric functions the calculator calls: `math.Pow`, `math.Log10` and
`skills.DefaultDifficultyToPerformance` (the skill curve, defined outside this file), and the
outcome in float64 arithmetic of the test `math.Round((aim/speed)*100)/100 < 1.09` of pp.go lines
108 and 117, as a function of the aim and speed difficulty: that outcome depends on the rounding of
the quotient and of the product and on infinities and NaN, which exact arithmetic does not have. -/
structure MathFns (K : Type) where
  pow : K → K → K
  log10 : K → K
  curve : K → K
  streamsNerfBelow : K → K → Bool

section Code

variable {K : Type} [LinearOrderedField K] [FloorRing K]

/-- Constant `PerformanceBaseMultiplier` (pp.go line 12). -/
def PerformanceBaseMultiplier : K := 109 / 100

/-- Go's `math.Round`: nearest integer, halves away from zero. -/
def mathRound (x : K) : K :=
  if 0 ≤ x then ((⌊x + 1 / 2⌋ : Int) : K) else -((⌊-x + 1 / 2⌋ : Int) : K)

/-- Method `calculateMissPenalty` (pp.go lines 258-260). -/
def calculateMissPenalty (E : MathFns K) (pp : PPv2 K) (missCount : K) : K :=
  97 / 100 * (1 - E.pow (E.pow (missCount / (pp.totalHits : K)) (1 / 2)) (1 + missCount / (3 / 2)))

/-- The local `lengthBonus` of `computeAimValue` and `computeSpeedValue`
(pp.go lines 138-141 and 190-193, the same text twice). -/
def lengthBonus (E : MathFns K) (pp : PPv2 K) : K :=
  let lengthBonus := 88 / 100 + 4 / 10 * min 1 ((pp.totalHits : K) / 2000)
  if pp.totalHits > 2000 then
    lengthBonus + E.log10 ((pp.totalHits : K) / 2000) * (1 / 2)
  else lengthBonus

/-- The local `approachRateFactor` of `computeAimValue` and `computeSpeedValue`
(pp.go lines 150-155 and 202-207, the same text twice). -/
def approachRateFactor (pp : PPv2 K) : K :=
  if pp.diff.ARReal > 1033 / 100 then 3 / 10 * (pp.diff.ARReal - 1033 / 100)
  else if pp.diff.ARReal < 8 then 25 / 1000 * (8 - pp.diff.ARReal)
  else 0

/-- Method `computeAimValue` (pp.go lines 134-180). -/
def computeAimValue (E : MathFns K) (pp : PPv2 K) : K :=
  let aimValue := E.curve pp.attribs.Aim
  let aimValue := aimValue * lengthBonus E pp
  let aimValue :=
    if pp.effectiveMissCount > 0 then aimValue * calculateMissPenalty E pp pp.effectiveMissCount
    else aimValue
  let aimValue := aimValue * (1 + approachRateFactor pp * lengthBonus E pp)
  let aimValue :=
    if pp.diff.ModsActive Modifier.Hidden then aimValue * (1 + 5 / 100 * (11 - pp.diff.ARReal))
    else aimValue
  let aimValue :=
    if pp.diff.ModsActive Modifier.Flashlight then
      let aimValue := aimValue * (1 + min (3 / 10 * ((pp.totalHits : K) / 200)) 1)
      let aimValue :=
        if pp.totalHits > 200 then aimValue + 25 / 100 * min (((pp.totalHits : K) - 200) / 300) 1
        else aimValue
      if pp.totalHits > 500 then aimValue + ((pp.totalHits : K) - 500) / 1600 else aimValue
    else aimValue
  let aimValue := aimValue * (3 / 10 + pp.score.Accuracy / 2)
  aimValue * (98 / 100 + E.pow pp.diff.ODReal 2 / 2500)

/-- Method `computeSpeedValue` (pp.go lines 182-221). -/
def computeSpeedValue (E : MathFns K) (pp : PPv2 K) : K :=
  if pp.diff.CheckModActive Modifier.Relax then 0
  else
    let speedValue := E.curve pp.attribs.Speed
    let speedValue := speedValue * lengthBonus E pp
    let speedValue :=
      if pp.effectiveMissCount > 0 then
        speedValue * calculateMissPenalty E pp pp.effectiveMissCount
      else speedValue
    let speedValue := speedValue * (1 + approachRateFactor pp * lengthBonus E pp)
    let speedValue :=
      if pp.diff.ModsActive Modifier.Hidden then
        speedValue * (1 + 5 / 100 * (11 - pp.diff.ARReal))
      else speedValue
    let speedValue :=
      speedValue * ((93 / 100 + E.pow pp.diff.ODReal 2 / 750) *
        E.pow pp.score.Accuracy (145 / 10 - max pp.diff.ODReal 8 / 2))
    if (pp.score.CountMeh : K) > (pp.totalHits : K) / 500 then
      speedValue * ((pp.score.CountMeh : K) - (pp.totalHits : K) / 500)
    else speedValue

/-- The local `betterAccuracyPercentage` of `computeAccuracyValue` (pp.go lines 225-234),
after its cap at zero. -/
def betterAccuracyPercentage (pp : PPv2 K) : K :=
  let betterAccuracyPercentage : K :=
    if pp.amountHitObjectsWithAccuracy > 0 then
      (((pp.score.CountGreat - (pp.totalHits - pp.amountHitObjectsWithAccuracy)) * 6 +
          pp.score.CountOk * 2 + pp.score.CountMeh : Int) : K) /
        ((pp.amountHitObjectsWithAccuracy : K) * 6)
    else 0
  if betterAccuracyPercentage < 0 then 0 else betterAccuracyPercentage

/-- Method `computeAccuracyValue` (pp.go lines 223-252). -/
def computeAccuracyValue (E : MathFns K) (pp : PPv2 K) : K :=
  let accuracyValue :=
    E.pow (152163 / 100000) pp.diff.ODReal * E.pow (betterAccuracyPercentage pp) 24 * (283 / 100)
  let accuracyValue :=
    accuracyValue * min (115 / 100) (E.pow ((pp.amountHitObjectsWithAccuracy : K) / 1000) (3 / 10))
  let accuracyValue :=
    if pp.diff.ModsActive Modifier.Hidden then accuracyValue * (108 / 100) else accuracyValue
  if pp.diff.ModsActive Modifier.Flashlight then accuracyValue * (102 / 100) else accuracyValue

/-- Method `computeFlashlightValue` (pp.go lines 254-256). -/
def computeFlashlightValue (_pp : PPv2 K) : K := 0

/-- The test `streamsNerf < 1.09` of pp.go line 117, for
`streamsNerf := math.Round((aim/speed)*100) / 100` of line 108, read in exact arithmetic.  With a
zero speed difficulty the float quotient is `+Inf` (aim > 0), `NaN` (aim = 0) or `-Inf` (aim < 0),
and the test holds only in the last case.  The float64 outcome can differ from this reading when
the product is within rounding error of a half-integer; it agrees when aim and speed are equal. -/
def streamsNerfBelowExact (aim speed : K) : Bool :=
  if speed = 0 then decide (aim < 0)
  else decide (mathRound (aim / speed * 100) / 100 < 109 / 100)

/-- Lines 50-56 of `Calculate` (pp.go): the slider-accuracy convention is chosen. -/
def Calculate.selectConvention (pp : PPv2 K) (diff : Difficulty K) : PPv2 K :=
  let pp := { pp with usingClassicSliderAccuracy := !diff.CheckModActive Modifier.Lazer }
  if diff.CheckModActive Modifier.Lazer && diff.CheckModActive Modifier.Classic then
    match GetModConfig diff with
    | some conf => { pp with usingClassicSliderAccuracy := conf.NoSliderHeadAccuracy }
    | none => pp
  else pp

/-- Lines 58-65 of `Calculate` (pp.go): the arguments and the derived counts are stored. -/
def Calculate.storeInputs (pp : PPv2 K) (attribs : Attributes K) (score : PerfScore K)
    (diff : Difficulty K) : PPv2 K :=
  { pp with
    attribs := attribs
    diff := diff
    score := score
    countSliderEndsDropped := attribs.Sliders - score.SliderEnd
    totalHits := score.CountGreat + score.CountOk + score.CountMeh + score.CountMiss
    totalImperfectHits := score.CountOk + score.CountMeh + score.CountMiss
    effectiveMissCount := 0 }

/-- Lines 68-77 of `Calculate` (pp.go): the classic branch of the miss estimate. -/
def Calculate.estimateClassic (pp : PPv2 K) : PPv2 K :=
  let fullComboThreshold : K := (pp.attribs.MaxCombo : K) - 1 / 10 * (pp.attribs.Sliders : K)
  let pp :=
    if (pp.score.MaxCombo : K) < fullComboThreshold then
      { pp with effectiveMissCount := fullComboThreshold / max 1 (pp.score.MaxCombo : K) }
    else pp
  { pp with effectiveMissCount := min pp.effectiveMissCount (pp.totalImperfectHits : K) }

/-- Lines 78-87 of `Calculate` (pp.go): the other branch of the miss estimate. -/
def Calculate.estimateModern (pp : PPv2 K) : PPv2 K :=
  let fullComboThreshold : K := ((pp.attribs.MaxCombo - pp.countSliderEndsDropped : Int) : K)
  let pp :=
    if (pp.score.MaxCombo : K) < fullComboThreshold then
      { pp with effectiveMissCount := fullComboThreshold / max 1 (pp.score.MaxCombo : K) }
    else pp
  { pp with
    effectiveMissCount :=
      min pp.effectiveMissCount (((pp.score.SliderBreaks + pp.score.CountMiss : Int)) : K) }

/-- Lines 67-91 of `Calculate` (pp.go): the effective miss count. -/
def Calculate.estimateMisses (pp : PPv2 K) : PPv2 K :=
  let pp :=
    if pp.attribs.Sliders > 0 then
      if pp.usingClassicSliderAccuracy then Calculate.estimateClassic pp
      else Calculate.estimateModern pp
    else pp
  { pp with effectiveMissCount := max (pp.score.CountMiss : K) pp.effectiveMissCount }

/-- Lines 93-96 of `Calculate` (pp.go): the number of objects that count for accuracy. -/
def Calculate.countAccuracyObjects (pp : PPv2 K) (attribs : Attributes K) : PPv2 K :=
  let pp := { pp with amountHitObjectsWithAccuracy := attribs.Circles }
  if !pp.usingClassicSliderAccuracy then
    { pp with amountHitObjectsWithAccuracy := pp.amountHitObjectsWithAccuracy + attribs.Sliders }
  else pp

/-- State of the receiver after pp.go lines 50-96 of `Calculate`, from the receiver before the call
and the arguments as they stand after lines 40-48. -/
def Calculate.prepare (pp : PPv2 K) (attribs : Attributes K) (score : PerfScore K)
    (diff : Difficulty K) : PPv2 K :=
  let pp := Calculate.selectConvention pp diff
  let pp := Calculate.storeInputs pp attribs score diff
  let pp := Calculate.estimateMisses pp
  Calculate.countAccuracyObjects pp attribs

/-- The arguments `attribs` and `score` after pp.go lines 40-48 of `Calculate`. -/
def Calculate.normalize (attribs : Attributes K) (score : PerfScore K) :
    Attributes K × PerfScore K :=
  let attribs := { attribs with MaxCombo := max 1 attribs.MaxCombo }
  let score := if score.MaxCombo < 0 then { score with MaxCombo := attribs.MaxCombo } else score
  let score :=
    if score.CountGreat < 0 then
      { score with
        CountGreat := attribs.ObjectCount - score.CountOk - score.CountMeh - score.CountMiss }
    else score
  (attribs, score)

/-- Method `Calculate` (pp.go lines 39-132): the receiver after the call and the returned record. -/
def Calculate (E : MathFns K) (pp : PPv2 K) (attribs : Attributes K) (score : PerfScore K)
    (diff : Difficulty K) : PPv2 K × PPv2Results K :=
  let normalized := Calculate.normalize attribs score
  let attribs := normalized.1
  let score := normalized.2
  let pp := Calculate.prepare pp attribs score diff
  let multiplier : K := PerformanceBaseMultiplier
  let multiplier :=
    if diff.ModsActive Modifier.SpunOut && pp.totalHits > 0 then
      multiplier * (1 - E.pow ((attribs.Spinners : K) / (pp.totalHits : K)) (85 / 100))
    else multiplier
  let accDepression : K := 1
  let streamsNerfBelow := E.streamsNerfBelow pp.attribs.Aim pp.attribs.Speed
  let results : PPv2Results K :=
    { Aim := computeAimValue E pp
      Speed := computeSpeedValue E pp
      Acc := computeAccuracyValue E pp
      Flashlight := computeFlashlightValue pp
      Total := 0 }
  let accFactor := |1 - pp.score.Accuracy|
  let accDepression := if streamsNerfBelow then max (86 / 100 - accFactor) (1 / 2) else accDepression
  let results :=
    if streamsNerfBelow then
      if accDepression > 0 then { results with Aim := results.Aim * accDepression } else results
    else results
  let results :=
    { results with
      Total :=
        E.pow
            (E.pow results.Aim (1185 / 1000) + E.pow results.Speed (83 / 100 * accDepression) +
              E.pow results.Acc (114 / 100))
            (1 / (11 / 10)) *
          multiplier }
  (pp, results)

end Code

/-- The real-number reading of the external functions: `math.Pow` is the real power, `math.Log10`
the logarithm in base ten, the streams-nerf test is read in exact arithmetic; the skill curve stays
a parameter. -/
noncomputable def realFns (curve : ℝ → ℝ) : MathFns ℝ where
  pow := fun x y => x ^ y
  log10 := fun x => Real.logb 10 x
  curve := curve
  streamsNerfBelow := streamsNerfBelowExact

/-! ## Statements of the specification, in its own words -/

section SpecSide

variable {K : Type} [LinearOrderedField K] [FloorRing K]

/-- Spec, section 4.2: "if achieved max combo is below this threshold, set a provisional estimate =
threshold / max(1, achieved combo)", and zero otherwise. -/
def specComboEstimate (threshold achievedCombo : K) : K :=
  if achievedCombo < threshold then threshold / max 1 achievedCombo else 0

/-- Spec, section 4.2: the provisional estimate `p` under the two conventions; it "starts at 0" when
there are no sliders. -/
def specProvisionalEstimate (classic : Bool)
    (maxCombo achievedCombo sliders sliderEnd sliderBreaks ok meh miss : Int) : K :=
  if sliders > 0 then
    if classic then
      min (specComboEstimate ((maxCombo : K) - 1 / 10 * (sliders : K)) (achievedCombo : K))
        ((ok : K) + (meh : K) + (miss : K))
    else
      min (specComboEstimate ((maxCombo : K) - ((sliders : K) - (sliderEnd : K))) (achievedCombo : K))
        ((sliderBreaks : K) + (miss : K))
  else 0

/-- Spec, section 4.2: "final effective miss count = max(raw miss count, provisional estimate)". -/
def specEffectiveMissCount (classic : Bool)
    (maxCombo achievedCombo sliders sliderEnd sliderBreaks ok meh miss : Int) : K :=
  max (miss : K)
    (specProvisionalEstimate classic maxCombo achievedCombo sliders sliderEnd sliderBreaks ok meh miss)

/-- Spec, section 4.4: the global multiplier, 1.09 times the spin-out factor when it applies. -/
def specMultiplier (E : MathFns K) (spunOut : Bool) (spinners totalHits : Int) : K :=
  if spunOut = true ∧ totalHits > 0 then
    109 / 100 * (1 - E.pow ((spinners : K) / (totalHits : K)) (85 / 100))
  else 109 / 100

/-- Spec, section 4.4: the accuracy-depression factor, one when the streams nerf does not apply. -/
def specAccDepression (nerf : Bool) (accuracy : K) : K :=
  if nerf then max (86 / 100 - |1 - accuracy|) (1 / 2) else 1

/-- Spec, section 4.4: the total from the three skill values, the depression factor and the
multiplier. -/
def specTotal (E : MathFns K) (aim speed acc depression multiplier : K) : K :=
  E.pow (E.pow aim (1185 / 1000) + E.pow speed (83 / 100 * depression) + E.pow acc (114 / 100))
    (1 / (11 / 10)) * multiplier

/-- Spec, section 4.1: "classic" is the default unless Lazer is active; with Lazer and Classic both
active an explicit sub-setting, when present, overrides the default. -/
def specClassicConvention (lazer classic : Bool) (settings : Option ClassicSettings) : Bool :=
  match lazer && classic, settings with
  | true, some conf => conf.NoSliderHeadAccuracy
  | _, _ => !lazer

/-- Spec, section 3: "accuracy-eligible object count = circles, plus sliders if modern slider
accuracy is in effect". -/
def specAccuracyEligibleCount (classicConvention : Bool) (circles sliders : Int) : Int :=
  if classicConvention then circles else circles + sliders

end SpecSide

/-! ## Sample inputs -/

section Samples

variable {K : Type} [LinearOrderedField K] [FloorRing K]

/-- A modifier set with nothing active. -/
def noMods : Modifier → Bool := fun _ => false

/-- A modifier set with exactly one modifier active. -/
def onlyMod (m : Modifier) : Modifier → Bool := fun x => decide (x = m)

/-- Scenario A of the specification: the difficulty attributes. -/
def scenarioAAttribs : Attributes K :=
  { Aim := 5, Speed := 5, Flashlight := 0, Sliders := 0, Circles := 100, Spinners := 0,
    ObjectCount := 100, MaxCombo := 100 }

/-- Scenario A of the specification: the score. -/
def scenarioAScore : PerfScore K :=
  { CountGreat := 100, CountOk := 0, CountMeh := 0, CountMiss := 0, MaxCombo := 100,
    SliderEnd := 0, SliderBreaks := 0, Accuracy := 1 }

/-- Scenario A of the specification: AR 9, OD 8 under a given modifier set. -/
def scenarioADiff (mods : Modifier → Bool) : Difficulty K :=
  { ARReal := 9, ODReal := 8, Mods := mods, classicConfig := none }

/-- A receiver as `NewPPCalculator` leaves it, every field zero. -/
def freshPP : PPv2 K :=
  { attribs :=
      { Aim := 0, Speed := 0, Flashlight := 0, Sliders := 0, Circles := 0, Spinners := 0,
        ObjectCount := 0, MaxCombo := 0 }
    score :=
      { CountGreat := 0, CountOk := 0, CountMeh := 0, CountMiss := 0, MaxCombo := 0,
        SliderEnd := 0, SliderBreaks := 0, Accuracy := 0 }
    diff := { ARReal := 0, ODReal := 0, Mods := noMods, classicConfig := none }
    effectiveMissCount := 0
    totalHits := 0
    totalImperfectHits := 0
    countSliderEndsDropped := 0
    amountHitObjectsWithAccuracy := 0
    usingClassicSliderAccuracy := false }

/-- A slider-free map of 150 circles with aim and speed difficulty 5. -/
def missesAttribs : Attributes K :=
  { Aim := 5, Speed := 5, Flashlight := 0, Sliders := 0, Circles := 150, Spinners := 0,
    ObjectCount := 150, MaxCombo := 150 }

/-- A score with 144 great hits, `m` misses, accuracy 0.96 and combo 100. -/
def missesScore (m : Int) : PerfScore K :=
  { CountGreat := 144, CountOk := 0, CountMeh := 0, CountMiss := m, MaxCombo := 100,
    SliderEnd := 0, SliderBreaks := 0, Accuracy := 24 / 25 }

/-- A score with no hit results at all. -/
def emptyScore : PerfScore K :=
  { CountGreat := 0, CountOk := 0, CountMeh := 0, CountMiss := 0, MaxCombo := 0,
    SliderEnd := 0, SliderBreaks := 0, Accuracy := 1 }

/-- Attributes with every field zero. -/
def zeroAttribs : Attributes K :=
  { Aim := 0, Speed := 0, Flashlight := 0, Sliders := 0, Circles := 0, Spinners := 0,
    ObjectCount := 0, MaxCombo := 0 }

/-- A map of two circles and one long slider: three objects, maximum combo 100. -/
def tickBreakAttribs : Attributes K :=
  { Aim := 5, Speed := 5, Flashlight := 0, Sliders := 1, Circles := 2, Spinners := 0,
    ObjectCount := 3, MaxCombo := 100 }

/-- A score on `tickBreakAttribs`: three great hits, twelve slider breaks, best combo 1. -/
def tickBreakScore : PerfScore K :=
  { CountGreat := 3, CountOk := 0, CountMeh := 0, CountMiss := 0, MaxCombo := 1,
    SliderEnd := 1, SliderBreaks := 12, Accuracy := 1 }

/-- A curve transform that is non-negative everywhere: the identity on non-negative difficulty. -/
def rampCurve (x : K) : K := max x 0

/-- Scenario B of the specification: Scenario A with five great hits turned into misses. -/
def scenarioBScore : PerfScore K :=
  { CountGreat := 95, CountOk := 0, CountMeh := 0, CountMiss := 5, MaxCombo := 100,
    SliderEnd := 0, SliderBreaks := 0, Accuracy := 95 / 100 }

/-- Scenario C of the specification: a map with 50 sliders and maximum combo 200. -/
def scenarioCAttribs : Attributes K :=
  { Aim := 5, Speed := 5, Flashlight := 0, Sliders := 50, Circles := 50, Spinners := 0,
    ObjectCount := 100, MaxCombo := 200 }

/-- Scenario C of the specification: no misses, `ok` hits of value ok, achieved combo 180, which
is the maximum combo minus 20. -/
def scenarioCScore (ok : Int) : PerfScore K :=
  { CountGreat := 100 - ok, CountOk := ok, CountMeh := 0, CountMiss := 0, MaxCombo := 180,
    SliderEnd := 0, SliderBreaks := 0, Accuracy := 1 }

/-- A slider-free map of twelve circles with aim and speed difficulty 5. -/
def twelveCircles : Attributes K :=
  { Aim := 5, Speed := 5, Flashlight := 0, Sliders := 0, Circles := 12, Spinners := 0,
    ObjectCount := 12, MaxCombo := 12 }

/-- The twelve-hit play with `k` great hits turned into misses and accuracy fraction `x`. -/
def twelveScore (k : Int) (x : K) : PerfScore K :=
  { CountGreat := 12 - k, CountOk := 0, CountMeh := 0, CountMiss := k, MaxCombo := 12,
    SliderEnd := 0, SliderBreaks := 0, Accuracy := x }

/-- A difficulty with no modifiers, AR 9 and a given overall difficulty. -/
def plainDiff (od : K) : Difficulty K :=
  { ARReal := 9, ODReal := od, Mods := noMods, classicConfig := none }

end Samples

/-! ## Derived quantities used in the statements -/

section Derived

variable {K : Type} [LinearOrderedField K] [FloorRing K]

/-- The convention flag chosen by pp.go lines 50-56, as a function of the difficulty. -/
def classicFlag (diff : Difficulty K) : Bool :=
  if diff.Mods Modifier.Lazer && diff.Mods Modifier.Classic then
    match diff.classicConfig with
    | some conf => conf.NoSliderHeadAccuracy
    | none => !diff.Mods Modifier.Lazer
  else !diff.Mods Modifier.Lazer

/-- The miss estimate before the final `max` (pp.go lines 65-89), as a function of the stored
inputs. -/
def provisionalEstimate (classic : Bool) (a : Attributes K) (s : PerfScore K) (dropped : Int) : K :=
  if a.Sliders > 0 then
    if classic then
      min
        (if (s.MaxCombo : K) < (a.MaxCombo : K) - 1 / 10 * (a.Sliders : K) then
          ((a.MaxCombo : K) - 1 / 10 * (a.Sliders : K)) / max 1 (s.MaxCombo : K)
        else 0)
        ((s.CountOk + s.CountMeh + s.CountMiss : Int) : K)
    else
      min
        (if (s.MaxCombo : K) < ((a.MaxCombo - dropped : Int) : K) then
          ((a.MaxCombo - dropped : Int) : K) / max 1 (s.MaxCombo : K)
        else 0)
        ((s.SliderBreaks + s.CountMiss : Int) : K)
  else 0

/-- The accuracy-depression factor used in the total (pp.go lines 106 and 117-119). -/
def accDepressionOf (E : MathFns K) (pp : PPv2 K) : K :=
  if E.streamsNerfBelow pp.attribs.Aim pp.attribs.Speed then
    max (86 / 100 - |1 - pp.score.Accuracy|) (1 / 2)
  else 1

/-- The inputs the specification calls valid: non-negative hit, slider-end and slider-break
counts, non-negative object counts and difficulty attributes, `SliderEnd <= Sliders`, achieved
combo at most the maximum combo, accuracy in `[0,1]`, AR and OD in `[0,11]`. -/
structure ValidInput (a : Attributes K) (s : PerfScore K) (d : Difficulty K) : Prop where
  great_nonneg : 0 ≤ s.CountGreat
  ok_nonneg : 0 ≤ s.CountOk
  meh_nonneg : 0 ≤ s.CountMeh
  miss_nonneg : 0 ≤ s.CountMiss
  sliderEnd_nonneg : 0 ≤ s.SliderEnd
  sliderBreaks_nonneg : 0 ≤ s.SliderBreaks
  sliders_nonneg : 0 ≤ a.Sliders
  circles_nonneg : 0 ≤ a.Circles
  spinners_nonneg : 0 ≤ a.Spinners
  objectCount_nonneg : 0 ≤ a.ObjectCount
  maxCombo_nonneg : 0 ≤ a.MaxCombo
  aim_nonneg : 0 ≤ a.Aim
  speed_nonneg : 0 ≤ a.Speed
  flashlight_nonneg : 0 ≤ a.Flashlight
  sliderEnd_le : s.SliderEnd ≤ a.Sliders
  combo_le : s.MaxCombo ≤ a.MaxCombo
  accuracy_nonneg : 0 ≤ s.Accuracy
  accuracy_le : s.Accuracy ≤ 1
  ar_nonneg : 0 ≤ d.ARReal
  ar_le : d.ARReal ≤ 11
  od_nonneg : 0 ≤ d.ODReal
  od_le : d.ODReal ≤ 11

end Derived

/-! ## The same code with every division by a variable checked

Each function below repeats its source function, with the divisions whose divisor is not a literal
made through `checkedDiv`: the result is `none` as soon as one of them has a zero divisor. -/

section Checked

variable {K : Type} [LinearOrderedField K] [FloorRing K]

/-- Division that fails on a zero divisor. -/
def checkedDiv (x y : K) : Option K := if y = 0 then none else some (x / y)

/-- Method `calculateMissPenalty` (pp.go lines 258-260), the division by `totalHits` checked. -/
def calculateMissPenalty.checked (E : MathFns K) (pp : PPv2 K) (missCount : K) : Option K := do
  let ratio ← checkedDiv missCount (pp.totalHits : K)
  pure (97 / 100 * (1 - E.pow (E.pow ratio (1 / 2)) (1 + missCount / (3 / 2))))

/-- Method `computeAimValue` (pp.go lines 134-180), the miss penalty checked. -/
def computeAimValue.checked (E : MathFns K) (pp : PPv2 K) : Option K := do
  let aimValue := E.curve pp.attribs.Aim
  let aimValue := aimValue * lengthBonus E pp
  let aimValue ←
    if pp.effectiveMissCount > 0 then
      (calculateMissPenalty.checked E pp pp.effectiveMissCount).map fun p => aimValue * p
    else some aimValue
  let aimValue := aimValue * (1 + approachRateFactor pp * lengthBonus E pp)
  let aimValue :=
    if pp.diff.ModsActive Modifier.Hidden then aimValue * (1 + 5 / 100 * (11 - pp.diff.ARReal))
    else aimValue
  let aimValue :=
    if pp.diff.ModsActive Modifier.Flashlight then
      let aimValue := aimValue * (1 + min (3 / 10 * ((pp.totalHits : K) / 200)) 1)
      let aimValue :=
        if pp.totalHits > 200 then aimValue + 25 / 100 * min (((pp.totalHits : K) - 200) / 300) 1
        else aimValue
      if pp.totalHits > 500 then aimValue + ((pp.totalHits : K) - 500) / 1600 else aimValue
    else aimValue
  let aimValue := aimValue * (3 / 10 + pp.score.Accuracy / 2)
  pure (aimValue * (98 / 100 + E.pow pp.diff.ODReal 2 / 2500))

/-- Method `computeSpeedValue` (pp.go lines 182-221), the miss penalty checked. -/
def computeSpeedValue.checked (E : MathFns K) (pp : PPv2 K) : Option K :=
  if pp.diff.CheckModActive Modifier.Relax then some 0
  else do
    let speedValue := E.curve pp.attribs.Speed
    let speedValue := speedValue * lengthBonus E pp
    let speedValue ←
      if pp.effectiveMissCount > 0 then
        (calculateMissPenalty.checked E pp pp.effectiveMissCount).map fun p => speedValue * p
      else some speedValue
    let speedValue := speedValue * (1 + approachRateFactor pp * lengthBonus E pp)
    let speedValue :=
      if pp.diff.ModsActive Modifier.Hidden then
        speedValue * (1 + 5 / 100 * (11 - pp.diff.ARReal))
      else speedValue
    let speedValue :=
      speedValue * ((93 / 100 + E.pow pp.diff.ODReal 2 / 750) *
        E.pow pp.score.Accuracy (145 / 10 - max pp.diff.ODReal 8 / 2))
    pure
      (if (pp.score.CountMeh : K) > (pp.totalHits : K) / 500 then
        speedValue * ((pp.score.CountMeh : K) - (pp.totalHits : K) / 500)
      else speedValue)

/-- The local `betterAccuracyPercentage` of `computeAccuracyValue` (pp.go lines 225-234), the
division by `amountHitObjectsWithAccuracy * 6` checked. -/
def betterAccuracyPercentage.checked (pp : PPv2 K) : Option K := do
  let betterAccuracyPercentage : K ←
    if pp.amountHitObjectsWithAccuracy > 0 then
      checkedDiv
        (((pp.score.CountGreat - (pp.totalHits - pp.amountHitObjectsWithAccuracy)) * 6 +
          pp.score.CountOk * 2 + pp.score.CountMeh : Int) : K)
        ((pp.amountHitObjectsWithAccuracy : K) * 6)
    else some 0
  pure (if betterAccuracyPercentage < 0 then 0 else betterAccuracyPercentage)

/-- Method `computeAccuracyValue` (pp.go lines 223-252), the percentage checked. -/
def computeAccuracyValue.checked (E : MathFns K) (pp : PPv2 K) : Option K := do
  let betterAccuracyPercentage ← betterAccuracyPercentage.checked pp
  let accuracyValue :=
    E.pow (152163 / 100000) pp.diff.ODReal * E.pow betterAccuracyPercentage 24 * (283 / 100)
  let accuracyValue :=
    accuracyValue * min (115 / 100) (E.pow ((pp.amountHitObjectsWithAccuracy : K) / 1000) (3 / 10))
  let accuracyValue :=
    if pp.diff.ModsActive Modifier.Hidden then accuracyValue * (108 / 100) else accuracyValue
  pure (if pp.diff.ModsActive Modifier.Flashlight then accuracyValue * (102 / 100)
    else accuracyValue)

/-- Lines 68-77 of `Calculate` (pp.go), the division by `max(1.0, combo)` checked. -/
def Calculate.estimateClassic.checked (pp : PPv2 K) : Option (PPv2 K) := do
  let fullComboThreshold : K := (pp.attribs.MaxCombo : K) - 1 / 10 * (pp.attribs.Sliders : K)
  let pp ←
    if (pp.score.MaxCombo : K) < fullComboThreshold then
      (checkedDiv fullComboThreshold (max 1 (pp.score.MaxCombo : K))).map fun q =>
        { pp with effectiveMissCount := q }
    else some pp
  pure { pp with effectiveMissCount := min pp.effectiveMissCount (pp.totalImperfectHits : K) }

/-- Lines 78-87 of `Calculate` (pp.go), the division by `max(1.0, combo)` checked. -/
def Calculate.estimateModern.checked (pp : PPv2 K) : Option (PPv2 K) := do
  let fullComboThreshold : K := ((pp.attribs.MaxCombo - pp.countSliderEndsDropped : Int) : K)
  let pp ←
    if (pp.score.MaxCombo : K) < fullComboThreshold then
      (checkedDiv fullComboThreshold (max 1 (pp.score.MaxCombo : K))).map fun q =>
        { pp with effectiveMissCount := q }
    else some pp
  pure
    { pp with
      effectiveMissCount :=
        min pp.effectiveMissCount (((pp.score.SliderBreaks + pp.score.CountMiss : Int)) : K) }

/-- Lines 67-91 of `Calculate` (pp.go), with the checked branches. -/
def Calculate.estimateMisses.checked (pp : PPv2 K) : Option (PPv2 K) := do
  let pp ←
    if pp.attribs.Sliders > 0 then
      if pp.usingClassicSliderAccuracy then Calculate.estimateClassic.checked pp
      else Calculate.estimateModern.checked pp
    else some pp
  pure { pp with effectiveMissCount := max (pp.score.CountMiss : K) pp.effectiveMissCount }

/-- Method `Calculate` (pp.go lines 39-132) with every division by a variable checked: the combo
divisor (lines 74 and 82), `totalHits` in the spin-out term (line 103), the speed difficulty
(line 108), `totalHits` in the miss penalty (line 259) and `amountHitObjectsWithAccuracy * 6`
(line 228). -/
def Calculate.checked (E : MathFns K) (pp : PPv2 K) (attribs : Attributes K)
    (score : PerfScore K) (diff : Difficulty K) : Option (PPv2 K × PPv2Results K) := do
  let normalized := Calculate.normalize attribs score
  let attribs := normalized.1
  let score := normalized.2
  let pp := Calculate.selectConvention pp diff
  let pp := Calculate.storeInputs pp attribs score diff
  let pp ← Calculate.estimateMisses.checked pp
  let pp := Calculate.countAccuracyObjects pp attribs
  let multiplier : K := PerformanceBaseMultiplier
  let multiplier ←
    if diff.ModsActive Modifier.SpunOut && pp.totalHits > 0 then
      (checkedDiv (attribs.Spinners : K) (pp.totalHits : K)).map fun q =>
        multiplier * (1 - E.pow q (85 / 100))
    else some multiplier
  let accDepression : K := 1
  let _ratio ← checkedDiv pp.attribs.Aim pp.attribs.Speed
  let streamsNerfBelow := E.streamsNerfBelow pp.attribs.Aim pp.attribs.Speed
  let aim ← computeAimValue.checked E pp
  let speed ← computeSpeedValue.checked E pp
  let acc ← computeAccuracyValue.checked E pp
  let results : PPv2Results K :=
    { Aim := aim
      Speed := speed
      Acc := acc
      Flashlight := computeFlashlightValue pp
      Total := 0 }
  let accFactor := |1 - pp.score.Accuracy|
  let accDepression := if streamsNerfBelow then max (86 / 100 - accFactor) (1 / 2) else accDepression
  let results :=
    if streamsNerfBelow then
      if accDepression > 0 then { results with Aim := results.Aim * accDepression } else results
    else results
  let results :=
    { results with
      Total :=
        E.pow
            (E.pow results.Aim (1185 / 1000) + E.pow results.Speed (83 / 100 * accDepression) +
              E.pow results.Acc (114 / 100))
            (1 / (11 / 10)) *
          multiplier }
  pure (pp, results)

end Checked

/-! ## The receiver after the preparation phase -/

section Prepare

variable {K : Type} [LinearOrderedField K] [FloorRing K]

omit [LinearOrderedField K] [FloorRing K] in
theorem selectConvention_eq (pp : PPv2 K) (d : Difficulty K) :
    Calculate.selectConvention pp d = { pp with usingClassicSliderAccuracy := classicFlag d } := by
  unfold Calculate.selectConvention classicFlag
  simp only [GetModConfig, Difficulty.CheckModActive]
  cases d.classicConfig <;> split_ifs <;> rfl

omit [FloorRing K] in
theorem estimateMisses_eq (pp : PPv2 K) (h0 : pp.effectiveMissCount = 0)
    (hi : pp.totalImperfectHits = pp.score.CountOk + pp.score.CountMeh + pp.score.CountMiss) :
    Calculate.estimateMisses pp =
      { pp with
        effectiveMissCount :=
          max (pp.score.CountMiss : K)
            (provisionalEstimate pp.usingClassicSliderAccuracy pp.attribs pp.score
              pp.countSliderEndsDropped) } := by
  obtain ⟨a, s, d, e, th, ti, cs, am, u⟩ := pp
  simp only at h0 hi
  subst h0 hi
  unfold Calculate.estimateMisses Calculate.estimateClassic Calculate.estimateModern
    provisionalEstimate
  by_cases hs : a.Sliders > 0
  · cases u
    · by_cases ht : (s.MaxCombo : K) < ((a.MaxCombo - cs : Int) : K) <;>
        simp only [hs, ht, if_true, if_false, Bool.false_eq_true]
    · by_cases ht : (s.MaxCombo : K) < (a.MaxCombo : K) - 1 / 10 * (a.Sliders : K) <;>
        simp only [hs, ht, if_true, if_false]
  · simp only [hs, if_false]

omit [LinearOrderedField K] [FloorRing K] in
theorem countAccuracyObjects_eq (pp : PPv2 K) (a : Attributes K) :
    Calculate.countAccuracyObjects pp a =
      { pp with
        amountHitObjectsWithAccuracy :=
          if pp.usingClassicSliderAccuracy then a.Circles else a.Circles + a.Sliders } := by
  unfold Calculate.countAccuracyObjects
  cases hc : pp.usingClassicSliderAccuracy <;> simp [hc]

omit [FloorRing K] in
/-- The receiver after the preparation phase, field by field. -/
theorem prepare_eq (pp : PPv2 K) (a : Attributes K) (s : PerfScore K) (d : Difficulty K) :
    Calculate.prepare pp a s d =
      { attribs := a
        score := s
        diff := d
        effectiveMissCount := max (s.CountMiss : K)
            (provisionalEstimate (classicFlag d) a s (a.Sliders - s.SliderEnd))
        totalHits := s.CountGreat + s.CountOk + s.CountMeh + s.CountMiss
        totalImperfectHits := s.CountOk + s.CountMeh + s.CountMiss
        countSliderEndsDropped := a.Sliders - s.SliderEnd
        amountHitObjectsWithAccuracy :=
          if classicFlag d then a.Circles else a.Circles + a.Sliders
        usingClassicSliderAccuracy := classicFlag d } := by
  unfold Calculate.prepare
  simp only [selectConvention_eq, countAccuracyObjects_eq]
  rw [estimateMisses_eq _ rfl rfl]
  rfl

omit [FloorRing K] in
theorem prepare_indep (pp pp' : PPv2 K) (a : Attributes K) (s : PerfScore K) (d : Difficulty K) :
    Calculate.prepare pp a s d = Calculate.prepare pp' a s d := by
  rw [prepare_eq, prepare_eq]

omit [LinearOrderedField K] [FloorRing K] in
theorem normalize_fst (a : Attributes K) (s : PerfScore K) :
    (Calculate.normalize a s).1 = { a with MaxCombo := max 1 a.MaxCombo } := rfl

omit [LinearOrderedField K] [FloorRing K] in
theorem normalize_countMiss (a : Attributes K) (s : PerfScore K) :
    (Calculate.normalize a s).2.CountMiss = s.CountMiss := by
  unfold Calculate.normalize
  dsimp only
  split_ifs <;> rfl

omit [LinearOrderedField K] [FloorRing K] in
theorem normalize_snd (a : Attributes K) (s : PerfScore K) :
    (Calculate.normalize a s).2 =
      { s with
        MaxCombo := if s.MaxCombo < 0 then max 1 a.MaxCombo else s.MaxCombo
        CountGreat :=
          if s.CountGreat < 0 then a.ObjectCount - s.CountOk - s.CountMeh - s.CountMiss
          else s.CountGreat } := by
  unfold Calculate.normalize
  dsimp only
  split_ifs <;> rfl

/-- The receiver after `Calculate` is the prepared state of the normalised arguments. -/
theorem Calculate_fst (E : MathFns K) (pp : PPv2 K) (a : Attributes K) (s : PerfScore K)
    (d : Difficulty K) :
    (Calculate E pp a s d).1 =
      Calculate.prepare pp (Calculate.normalize a s).1 (Calculate.normalize a s).2 d := rfl

theorem Calculate_Speed (E : MathFns K) (pp : PPv2 K) (a : Attributes K) (s : PerfScore K)
    (d : Difficulty K) :
    (Calculate E pp a s d).2.Speed = computeSpeedValue E (Calculate E pp a s d).1 := by
  unfold Calculate
  dsimp only
  split_ifs <;> rfl

theorem Calculate_Acc (E : MathFns K) (pp : PPv2 K) (a : Attributes K) (s : PerfScore K)
    (d : Difficulty K) :
    (Calculate E pp a s d).2.Acc = computeAccuracyValue E (Calculate E pp a s d).1 := by
  unfold Calculate
  dsimp only
  split_ifs <;> rfl

theorem Calculate_Flashlight (E : MathFns K) (pp : PPv2 K) (a : Attributes K) (s : PerfScore K)
    (d : Difficulty K) : (Calculate E pp a s d).2.Flashlight = 0 := by
  unfold Calculate
  dsimp only
  split_ifs <;> rfl

theorem Calculate_Aim (E : MathFns K) (pp : PPv2 K) (a : Attributes K) (s : PerfScore K)
    (d : Difficulty K) :
    (Calculate E pp a s d).2.Aim =
      if E.streamsNerfBelow (Calculate E pp a s d).1.attribs.Aim
          (Calculate E pp a s d).1.attribs.Speed
          = true ∧ accDepressionOf E (Calculate E pp a s d).1 > 0 then
        computeAimValue E (Calculate E pp a s d).1 * accDepressionOf E (Calculate E pp a s d).1
      else computeAimValue E (Calculate E pp a s d).1 := by
  unfold Calculate accDepressionOf
  dsimp only
  split_ifs <;> first | rfl | simp_all

theorem Calculate_Total (E : MathFns K) (pp : PPv2 K) (a : Attributes K) (s : PerfScore K)
    (d : Difficulty K) :
    (Calculate E pp a s d).2.Total =
      E.pow
          (E.pow (Calculate E pp a s d).2.Aim (1185 / 1000) +
            E.pow (Calculate E pp a s d).2.Speed
              (83 / 100 * accDepressionOf E (Calculate E pp a s d).1) +
            E.pow (Calculate E pp a s d).2.Acc (114 / 100))
          (1 / (11 / 10)) *
        (if d.Mods Modifier.SpunOut = true ∧ (Calculate E pp a s d).1.totalHits > 0 then
          109 / 100 *
            (1 - E.pow (((Calculate E pp a s d).1.attribs.Spinners : K) /
              ((Calculate E pp a s d).1.totalHits : K)) (85 / 100))
        else 109 / 100) := by
  unfold Calculate accDepressionOf PerformanceBaseMultiplier
  simp only [Calculate_fst, prepare_eq, normalize_fst, Difficulty.ModsActive, Bool.and_eq_true,
    decide_eq_true_eq]

theorem mathRound_intCast (n : Int) : mathRound (n : K) = n := by
  unfold mathRound
  have h1 : ⌊(n : K) + 1 / 2⌋ = n := by
    rw [Int.floor_eq_iff]
    constructor <;> linarith [show (0 : K) < 1 / 2 by norm_num]
  have h2 : ⌊-(n : K) + 1 / 2⌋ = -n := by
    rw [Int.floor_eq_iff]
    push_cast
    constructor <;> linarith [show (0 : K) < 1 / 2 by norm_num]
  split_ifs with h
  · rw [h1]
  · rw [h2]
    push_cast
    ring

/-- Equal non-zero aim and speed difficulty: the ratio rounds to one and the nerf applies. -/
theorem streamsNerfBelowExact_self (x : K) (hx : x ≠ 0) :
    streamsNerfBelowExact x x = true := by
  unfold streamsNerfBelowExact
  rw [if_neg hx, div_self hx, one_mul]
  have h100 : mathRound (100 : K) = 100 := by
    have h := mathRound_intCast (K := K) 100
    simpa using h
  rw [h100]
  simp only [decide_eq_true_eq]
  norm_num

omit [FloorRing K] in
theorem betterAccuracyPercentage_nonneg (pp : PPv2 K) : 0 ≤ betterAccuracyPercentage pp := by
  unfold betterAccuracyPercentage
  dsimp only
  split_ifs <;> first | exact le_refl _ | linarith

omit [FloorRing K] in
theorem betterAccuracyPercentage_of_nonpos (pp : PPv2 K)
    (h : pp.amountHitObjectsWithAccuracy ≤ 0) : betterAccuracyPercentage pp = 0 := by
  unfold betterAccuracyPercentage
  have h' : ¬ pp.amountHitObjectsWithAccuracy > 0 := not_lt.mpr h
  simp [h']

end Prepare

/-! ## The effective miss count -/

section Claims

variable {K : Type} [LinearOrderedField K] [FloorRing K]

/-- C1: for every receiver, attributes, score and difficulty (hence every modifier set, either
slider-accuracy convention and any slider count), the effective miss count that `Calculate` leaves
in the receiver is at least the recorded miss count `CountMiss`. -/
theorem effectiveMissCount_ge_countMiss (E : MathFns K) (pp : PPv2 K) (a : Attributes K)
    (s : PerfScore K) (d : Difficulty K) :
    (s.CountMiss : K) ≤ (Calculate E pp a s d).1.effectiveMissCount := by
  rw [Calculate_fst, prepare_eq, normalize_countMiss]
  exact le_max_left _ _

/-- C2: the effective miss count computed by `Calculate` is the specification's
`max(CountMiss, p)`, with `p` the clamped combo estimate of the convention in force, the maximum
combo floored at one and the achieved combo taken after the unset-sentinel default. -/
theorem effectiveMissCount_eq_spec (E : MathFns K) (pp : PPv2 K) (a : Attributes K)
    (s : PerfScore K) (d : Difficulty K) :
    (Calculate E pp a s d).1.effectiveMissCount =
      specEffectiveMissCount (Calculate E pp a s d).1.usingClassicSliderAccuracy
        (max 1 a.MaxCombo) (if s.MaxCombo < 0 then max 1 a.MaxCombo else s.MaxCombo)
        a.Sliders s.SliderEnd s.SliderBreaks s.CountOk s.CountMeh s.CountMiss := by
  rw [Calculate_fst, prepare_eq, normalize_snd, normalize_fst]
  unfold specEffectiveMissCount specProvisionalEstimate specComboEstimate provisionalEstimate
  dsimp only
  push_cast
  rfl

/-! ## The speed value under Relax, the total, and independence of the receiver -/

/-- C3: whenever the Relax modifier is active, the `Speed` field of the record returned by
`Calculate` is exactly 0, whatever the other inputs are. -/
theorem speed_zero_of_relax (E : MathFns K) (pp : PPv2 K) (a : Attributes K) (s : PerfScore K)
    (d : Difficulty K) (hrelax : d.Mods Modifier.Relax = true) :
    (Calculate E pp a s d).2.Speed = 0 := by
  rw [Calculate_Speed, Calculate_fst, prepare_eq]
  unfold computeSpeedValue
  simp [Difficulty.CheckModActive, hrelax]

/-- C3 (witness): Scenario A played with Relax as the only modifier. -/
theorem speed_zero_of_relax_witness :
    (scenarioADiff (onlyMod Modifier.Relax) : Difficulty ℝ).Mods Modifier.Relax = true ∧
      (Calculate (realFns id) freshPP scenarioAAttribs scenarioAScore
        (scenarioADiff (onlyMod Modifier.Relax))).2.Speed = 0 :=
  ⟨rfl, speed_zero_of_relax (realFns id) freshPP scenarioAAttribs scenarioAScore
    (scenarioADiff (onlyMod Modifier.Relax)) rfl⟩

/-- C5: the `Total` field is the specification's combination of the returned `Aim`, `Speed` and
`Acc` fields with the accuracy-depression factor and the multiplier (1.09, times the spin-out
factor exactly when Spin-out is active and `totalHits > 0`); the `Flashlight` field is 0, and
changing the flashlight difficulty changes nothing in the returned record. -/
theorem total_eq_spec (E : MathFns K) (pp : PPv2 K) (a : Attributes K) (s : PerfScore K)
    (d : Difficulty K) :
    (Calculate E pp a s d).2.Total =
        specTotal E (Calculate E pp a s d).2.Aim (Calculate E pp a s d).2.Speed
          (Calculate E pp a s d).2.Acc
          (specAccDepression (E.streamsNerfBelow a.Aim a.Speed) s.Accuracy)
          (specMultiplier E (d.Mods Modifier.SpunOut) a.Spinners
            (Calculate E pp a s d).1.totalHits) ∧
      (Calculate E pp a s d).2.Flashlight = 0 ∧
      ∀ f : K, (Calculate E pp { a with Flashlight := f } s d).2 = (Calculate E pp a s d).2 := by
  refine ⟨?_, Calculate_Flashlight E pp a s d, ?_⟩
  · rw [Calculate_Total]
    unfold specTotal specMultiplier specAccDepression accDepressionOf
    simp only [Calculate_fst, prepare_eq, normalize_fst, normalize_snd]
  · intro f
    unfold Calculate
    simp only [prepare_eq, normalize_fst, normalize_snd]
    rfl

/-- C9: the record returned by `Calculate` does not depend on the receiver's prior state: two
receivers in arbitrary states give the same record (and leave the same state) on the same
arguments, and a second call with the same arguments returns what the first returned. -/
theorem Calculate_receiver_independent (E : MathFns K) (pp pp' : PPv2 K) (a : Attributes K)
    (s : PerfScore K) (d : Difficulty K) :
    Calculate E pp a s d = Calculate E pp' a s d ∧
      (Calculate E (Calculate E pp a s d).1 a s d).2 = (Calculate E pp a s d).2 := by
  have h : ∀ p p' : PPv2 K, Calculate E p a s d = Calculate E p' a s d := by
    intro p p'
    unfold Calculate
    simp only [prepare_indep p p']
  exact ⟨h pp pp', by rw [h (Calculate E pp a s d).1 pp]⟩

end Claims

/-! ## The accuracy value -/

section AccuracyValue

theorem computeAccuracyValue_lt (c : ℝ → ℝ) (P Q : PPv2 ℝ) (hd : P.diff = Q.diff)
    (hn : P.amountHitObjectsWithAccuracy = Q.amountHitObjectsWithAccuracy)
    (hpos : 0 < P.amountHitObjectsWithAccuracy)
    (hb : betterAccuracyPercentage P < betterAccuracyPercentage Q) :
    computeAccuracyValue (realFns c) P < computeAccuracyValue (realFns c) Q := by
  unfold computeAccuracyValue
  simp only [realFns, ← hd, ← hn]
  have hX : (0 : ℝ) < (152163 / 100000 : ℝ) ^ P.diff.ODReal :=
    Real.rpow_pos_of_pos (by norm_num) _
  have hN : (0 : ℝ) < ((P.amountHitObjectsWithAccuracy : ℝ) / 1000) ^ (3 / 10 : ℝ) :=
    Real.rpow_pos_of_pos (div_pos (by exact_mod_cast hpos) (by norm_num)) _
  have hM : (0 : ℝ) <
      min (115 / 100) (((P.amountHitObjectsWithAccuracy : ℝ) / 1000) ^ (3 / 10 : ℝ)) :=
    lt_min (by norm_num) hN
  have hB : betterAccuracyPercentage P ^ (24 : ℝ) < betterAccuracyPercentage Q ^ (24 : ℝ) :=
    Real.rpow_lt_rpow (betterAccuracyPercentage_nonneg P) hb (by norm_num)
  split_ifs <;> gcongr

theorem computeAccuracyValue_le (c : ℝ → ℝ) (P Q : PPv2 ℝ) (hd : P.diff = Q.diff)
    (hn : P.amountHitObjectsWithAccuracy = Q.amountHitObjectsWithAccuracy)
    (hb : betterAccuracyPercentage P ≤ betterAccuracyPercentage Q) :
    computeAccuracyValue (realFns c) P ≤ computeAccuracyValue (realFns c) Q := by
  rcases hb.lt_or_eq with hlt | heq
  · by_cases hpos : 0 < P.amountHitObjectsWithAccuracy
    · exact (computeAccuracyValue_lt c P Q hd hn hpos hlt).le
    · have hP := betterAccuracyPercentage_of_nonpos P (not_lt.mp hpos)
      have hQ := betterAccuracyPercentage_of_nonpos Q (hn ▸ not_lt.mp hpos)
      rw [hP, hQ] at hlt
      exact absurd hlt (lt_irrefl _)
  · unfold computeAccuracyValue
    simp only [← hd, ← hn, heq]
    exact le_refl _

/-- C7 (counterexample): in Scenario A the accuracy-eligible count is 100, and the score whose
accuracy fraction is 1/2 gets the same accuracy value as the score whose accuracy fraction is 1
(same hit counts): the larger fraction does not give a strictly larger value. -/
theorem acc_not_increasing_in_accuracy :
    0 < (Calculate (realFns id) freshPP scenarioAAttribs scenarioAScore
          (scenarioADiff noMods)).1.amountHitObjectsWithAccuracy ∧
      ((1 / 2 : ℝ) < (scenarioAScore : PerfScore ℝ).Accuracy) ∧
      ¬ ((Calculate (realFns id) freshPP scenarioAAttribs
            { (scenarioAScore : PerfScore ℝ) with Accuracy := 1 / 2 } (scenarioADiff noMods)).2.Acc <
          (Calculate (realFns id) freshPP scenarioAAttribs scenarioAScore
            (scenarioADiff noMods)).2.Acc) := by
  refine ⟨?_, ?_, ?_⟩
  · rw [Calculate_fst, prepare_eq]
    decide
  · simp only [scenarioAScore]
    norm_num
  · rw [Calculate_Acc, Calculate_Acc]
    exact not_lt.mpr (le_of_eq rfl)

/-- C7 (amended): with attributes and modifiers fixed and a positive accuracy-eligible count, the
accuracy value is strictly increasing in the better-accuracy percentage that `computeAccuracyValue`
derives from the hit counts, and it does not depend on the score's accuracy fraction. -/
theorem acc_strictMono_in_betterAccuracy (c : ℝ → ℝ) (pp : PPv2 ℝ) (a : Attributes ℝ)
    (s₁ s₂ : PerfScore ℝ) (d : Difficulty ℝ)
    (hn : 0 < (Calculate (realFns c) pp a s₁ d).1.amountHitObjectsWithAccuracy)
    (hb : betterAccuracyPercentage (Calculate (realFns c) pp a s₁ d).1 <
      betterAccuracyPercentage (Calculate (realFns c) pp a s₂ d).1) :
    (Calculate (realFns c) pp a s₁ d).2.Acc < (Calculate (realFns c) pp a s₂ d).2.Acc ∧
      ∀ x : ℝ, (Calculate (realFns c) pp a { s₁ with Accuracy := x } d).2.Acc =
        (Calculate (realFns c) pp a s₁ d).2.Acc := by
  constructor
  · rw [Calculate_Acc, Calculate_Acc]
    refine computeAccuracyValue_lt c _ _ ?_ ?_ hn hb
    · simp only [Calculate_fst, prepare_eq]
    · simp only [Calculate_fst, prepare_eq, normalize_fst]
  · intro x
    rw [Calculate_Acc, Calculate_Acc]
    simp only [Calculate_fst, prepare_eq, normalize_fst, normalize_snd]
    rfl

/-- C7 (witness): Scenario A with one great hit turned into an ok hit, against Scenario A. -/
theorem acc_strictMono_in_betterAccuracy_witness :
    (Calculate (realFns id) freshPP scenarioAAttribs
        { (scenarioAScore : PerfScore ℝ) with CountGreat := 99, CountOk := 1 }
        (scenarioADiff noMods)).2.Acc <
      (Calculate (realFns id) freshPP scenarioAAttribs scenarioAScore (scenarioADiff noMods)).2.Acc :=
  (acc_strictMono_in_betterAccuracy id freshPP scenarioAAttribs
    { (scenarioAScore : PerfScore ℝ) with CountGreat := 99, CountOk := 1 } scenarioAScore
    (scenarioADiff noMods)
    (by rw [Calculate_fst, prepare_eq]; decide)
    (by
      simp only [Calculate_fst, prepare_eq, normalize_fst, normalize_snd]
      unfold betterAccuracyPercentage
      simp only [scenarioAAttribs, scenarioAScore, scenarioADiff, noMods, classicFlag]
      norm_num)).1

/-- With great, ok and meh counts fixed, a larger miss count gives a smaller or equal
better-accuracy percentage. -/
theorem betterAccuracyPercentage_antitone_in_misses (c : ℝ → ℝ) (pp : PPv2 ℝ)
    (a : Attributes ℝ) (s : PerfScore ℝ) (d : Difficulty ℝ) (m₁ m₂ : Int) (h : m₁ ≤ m₂) :
    betterAccuracyPercentage (Calculate (realFns c) pp a { s with CountMiss := m₂ } d).1 ≤
      betterAccuracyPercentage (Calculate (realFns c) pp a { s with CountMiss := m₁ } d).1 := by
  simp only [Calculate_fst, prepare_eq, normalize_fst, normalize_snd]
  unfold betterAccuracyPercentage
  dsimp only
  by_cases hn : (if classicFlag d = true then a.Circles else a.Circles + a.Sliders) > 0
  · simp only [hn, if_true]
    have h6 : (0 : ℝ) <
        ((if classicFlag d = true then a.Circles else a.Circles + a.Sliders : Int) : ℝ) * 6 := by
      have : (0 : ℝ) <
          ((if classicFlag d = true then a.Circles else a.Circles + a.Sliders : Int) : ℝ) := by
        exact_mod_cast hn
      linarith
    generalize (if classicFlag d = true then a.Circles else a.Circles + a.Sliders) = n at h6 ⊢
    have hdiv : ∀ x y : Int, x ≤ y → ((x : Int) : ℝ) / ((n : ℝ) * 6) ≤ ((y : Int) : ℝ) / ((n : ℝ) * 6) := by
      intro x y hxy
      exact (div_le_div_iff_of_pos_right h6).mpr (by exact_mod_cast hxy)
    by_cases hg : s.CountGreat < 0
    · simp only [hg, if_true]
      have := hdiv
        ((a.ObjectCount - s.CountOk - s.CountMeh - m₂ -
          (a.ObjectCount - s.CountOk - s.CountMeh - m₂ + s.CountOk + s.CountMeh + m₂ - n)) * 6 +
            s.CountOk * 2 + s.CountMeh)
        ((a.ObjectCount - s.CountOk - s.CountMeh - m₁ -
          (a.ObjectCount - s.CountOk - s.CountMeh - m₁ + s.CountOk + s.CountMeh + m₁ - n)) * 6 +
            s.CountOk * 2 + s.CountMeh) (by omega)
      split_ifs <;> linarith
    · simp only [hg, if_false]
      have := hdiv
        ((s.CountGreat - (s.CountGreat + s.CountOk + s.CountMeh + m₂ - n)) * 6 +
            s.CountOk * 2 + s.CountMeh)
        ((s.CountGreat - (s.CountGreat + s.CountOk + s.CountMeh + m₁ - n)) * 6 +
            s.CountOk * 2 + s.CountMeh) (by omega)
      split_ifs <;> linarith
  · simp only [hn, if_false]
    exact le_refl _

/-- C6 (amended): with attributes, modifiers, great/ok/meh counts, combo, slider ends, slider
breaks and accuracy fixed, a larger miss count never gives a larger accuracy value `Acc`. -/
theorem acc_antitone_in_misses (c : ℝ → ℝ) (pp : PPv2 ℝ) (a : Attributes ℝ) (s : PerfScore ℝ)
    (d : Difficulty ℝ) (m₁ m₂ : Int) (h : m₁ ≤ m₂) :
    (Calculate (realFns c) pp a { s with CountMiss := m₂ } d).2.Acc ≤
      (Calculate (realFns c) pp a { s with CountMiss := m₁ } d).2.Acc := by
  rw [Calculate_Acc, Calculate_Acc]
  refine computeAccuracyValue_le c _ _ ?_ ?_
    (betterAccuracyPercentage_antitone_in_misses c pp a s d m₁ m₂ h)
  · simp only [Calculate_fst, prepare_eq]
  · simp only [Calculate_fst, prepare_eq, normalize_fst]

/-- C6 (witness): Scenario A with five misses added, against Scenario A. -/
theorem acc_antitone_in_misses_witness :
    (Calculate (realFns id) freshPP scenarioAAttribs
        { (scenarioAScore : PerfScore ℝ) with CountMiss := 5 } (scenarioADiff noMods)).2.Acc ≤
      (Calculate (realFns id) freshPP scenarioAAttribs
        { (scenarioAScore : PerfScore ℝ) with CountMiss := 0 } (scenarioADiff noMods)).2.Acc :=
  acc_antitone_in_misses id freshPP scenarioAAttribs scenarioAScore (scenarioADiff noMods) 0 5
    (by decide)

end AccuracyValue

/-! ## The aim and speed values -/

section AimSpeed

theorem rpow_half_one_div_49 : ((1 : ℝ) / 49) ^ ((1 : ℝ) / 2) = 1 / 7 := by
  rw [show (1 : ℝ) / 49 = (1 / 7) ^ (2 : ℝ) by norm_num, ← Real.rpow_mul (by norm_num)]
  norm_num

theorem rpow_half_one_div_25 : ((1 : ℝ) / 25) ^ ((1 : ℝ) / 2) = 1 / 5 := by
  rw [show (1 : ℝ) / 25 = (1 / 5) ^ (2 : ℝ) by norm_num, ← Real.rpow_mul (by norm_num)]
  norm_num

/-- C6 (counterexample): on a slider-free map with 144 great hits, accuracy 0.96 and everything
else fixed, the score with 6 misses gets a larger `Aim` and a larger `Speed` than the score with 3
misses: the miss penalty is `0.97 * (1 - (1/7)^3)` at 3 misses of 147 hits and
`0.97 * (1 - (1/5)^5)` at 6 misses of 150 hits, and the length bonus grows with the hit total. -/
theorem aim_not_antitone_in_misses :
    (3 : Int) ≤ 6 ∧
      ¬ ((Calculate (realFns id) freshPP missesAttribs (missesScore 6)
            (scenarioADiff noMods)).2.Aim ≤
          (Calculate (realFns id) freshPP missesAttribs (missesScore 3)
            (scenarioADiff noMods)).2.Aim) ∧
      ¬ ((Calculate (realFns id) freshPP missesAttribs (missesScore 6)
            (scenarioADiff noMods)).2.Speed ≤
          (Calculate (realFns id) freshPP missesAttribs (missesScore 3)
            (scenarioADiff noMods)).2.Speed) := by
  refine ⟨by decide, ?_, ?_⟩
  · rw [Calculate_Aim, Calculate_Aim]
    simp only [Calculate_fst, prepare_eq, normalize_fst, normalize_snd]
    unfold accDepressionOf computeAimValue lengthBonus approachRateFactor calculateMissPenalty
      provisionalEstimate
    simp only [missesAttribs, missesScore, scenarioADiff, noMods, realFns, Difficulty.ModsActive,
      Difficulty.CheckModActive]
    rw [streamsNerfBelowExact_self _ (by norm_num)]
    norm_num
    rw [rpow_half_one_div_49, rpow_half_one_div_25]
    norm_num
  · rw [Calculate_Speed, Calculate_Speed]
    simp only [Calculate_fst, prepare_eq, normalize_fst, normalize_snd]
    unfold computeSpeedValue lengthBonus approachRateFactor calculateMissPenalty
      provisionalEstimate
    simp only [missesAttribs, missesScore, scenarioADiff, noMods, realFns, Difficulty.ModsActive,
      Difficulty.CheckModActive]
    have hp : (0 : ℝ) < (24 / 25 : ℝ) ^ ((21 : ℝ) / 2) := Real.rpow_pos_of_pos (by norm_num) _
    norm_num
    rw [rpow_half_one_div_49, rpow_half_one_div_25]
    norm_num
    nlinarith [hp]

end AimSpeed

/-! ## Bounds on the factors of the skill values -/

section Bounds

theorem lengthBonus_pos (c : ℝ → ℝ) (P : PPv2 ℝ) (hT : 0 ≤ P.totalHits) :
    0 < lengthBonus (realFns c) P := by
  unfold lengthBonus
  dsimp only
  have hT' : (0 : ℝ) ≤ (P.totalHits : ℝ) := by exact_mod_cast hT
  have hmin : (0 : ℝ) ≤ min 1 ((P.totalHits : ℝ) / 2000) := le_min (by norm_num) (by positivity)
  split_ifs with h
  · have h1 : (1 : ℝ) ≤ (P.totalHits : ℝ) / 2000 := by
      have : (2000 : ℝ) < (P.totalHits : ℝ) := by exact_mod_cast h
      rw [le_div_iff₀ (by norm_num)]
      linarith
    have hlog : 0 ≤ Real.logb 10 ((P.totalHits : ℝ) / 2000) :=
      Real.logb_nonneg (by norm_num) h1
    simp only [realFns]
    positivity
  · positivity

theorem approachRateFactor_nonneg {K : Type} [LinearOrderedField K] (P : PPv2 K) :
    0 ≤ approachRateFactor P := by
  unfold approachRateFactor
  split_ifs with h1 h2
  · have : 0 ≤ P.diff.ARReal - 1033 / 100 := by linarith
    positivity
  · have : 0 ≤ 8 - P.diff.ARReal := by linarith
    positivity
  · exact le_refl _

theorem calculateMissPenalty_nonneg (c : ℝ → ℝ) (P : PPv2 ℝ) (m : ℝ) (hm : 0 < m)
    (hmT : m ≤ (P.totalHits : ℝ)) : 0 ≤ calculateMissPenalty (realFns c) P m := by
  unfold calculateMissPenalty
  simp only [realFns]
  have hT : (0 : ℝ) < (P.totalHits : ℝ) := lt_of_lt_of_le hm hmT
  have hq0 : 0 ≤ m / (P.totalHits : ℝ) := by positivity
  have hq1 : m / (P.totalHits : ℝ) ≤ 1 := (div_le_one hT).mpr hmT
  have hs0 : 0 ≤ (m / (P.totalHits : ℝ)) ^ ((1 : ℝ) / 2) := Real.rpow_nonneg hq0 _
  have hs1 : (m / (P.totalHits : ℝ)) ^ ((1 : ℝ) / 2) ≤ 1 :=
    Real.rpow_le_one hq0 hq1 (by norm_num)
  have he : 0 ≤ 1 + m / (3 / 2) := by positivity
  have hp1 : ((m / (P.totalHits : ℝ)) ^ ((1 : ℝ) / 2)) ^ (1 + m / (3 / 2)) ≤ 1 :=
    Real.rpow_le_one hs0 hs1 he
  have : 0 ≤ 1 - ((m / (P.totalHits : ℝ)) ^ ((1 : ℝ) / 2)) ^ (1 + m / (3 / 2)) := by linarith
  positivity

theorem computeAimValue_nonneg (c : ℝ → ℝ) (P : PPv2 ℝ) (hc : 0 ≤ c P.attribs.Aim)
    (hT : 0 ≤ P.totalHits) (hm : P.effectiveMissCount ≤ (P.totalHits : ℝ))
    (hAR : P.diff.ARReal ≤ 11) (hacc : 0 ≤ P.score.Accuracy) :
    0 ≤ computeAimValue (realFns c) P := by
  unfold computeAimValue
  dsimp only
  have hLB := lengthBonus_pos c P hT
  have harf := approachRateFactor_nonneg P
  have hT' : (0 : ℝ) ≤ (P.totalHits : ℝ) := by exact_mod_cast hT
  have hAR' : 0 ≤ 11 - P.diff.ARReal := by linarith
  have hcc : 0 ≤ (realFns c).curve P.attribs.Aim := hc
  have hod : 0 ≤ (realFns c).pow P.diff.ODReal 2 := by
    simp only [realFns, Real.rpow_two]
    positivity
  have hpen : P.effectiveMissCount > 0 →
      0 ≤ calculateMissPenalty (realFns c) P P.effectiveMissCount :=
    fun h => calculateMissPenalty_nonneg c P _ h hm
  have hq : P.totalHits > 200 → (0 : ℝ) ≤ (P.totalHits : ℝ) - 200 := by
    intro h
    have : (200 : ℝ) < (P.totalHits : ℝ) := by exact_mod_cast h
    linarith
  have hr : P.totalHits > 500 → (0 : ℝ) ≤ (P.totalHits : ℝ) - 500 := by
    intro h
    have : (500 : ℝ) < (P.totalHits : ℝ) := by exact_mod_cast h
    linarith
  by_cases h0 : P.effectiveMissCount > 0 <;> by_cases h200 : P.totalHits > 200 <;>
    by_cases h500 : P.totalHits > 500 <;>
    simp only [h0, h200, h500, if_true, if_false] <;>
    (try have hp' := hpen h0) <;> (try have hq' := hq h200) <;> (try have hr' := hr h500) <;>
    split_ifs <;> positivity

theorem computeSpeedValue_nonneg (c : ℝ → ℝ) (P : PPv2 ℝ) (hc : 0 ≤ c P.attribs.Speed)
    (hT : 0 ≤ P.totalHits) (hm : P.effectiveMissCount ≤ (P.totalHits : ℝ))
    (hAR : P.diff.ARReal ≤ 11) (hacc : 0 ≤ P.score.Accuracy) :
    0 ≤ computeSpeedValue (realFns c) P := by
  unfold computeSpeedValue
  dsimp only
  have hLB := lengthBonus_pos c P hT
  have harf := approachRateFactor_nonneg P
  have hAR' : 0 ≤ 11 - P.diff.ARReal := by linarith
  have hcc : 0 ≤ (realFns c).curve P.attribs.Speed := hc
  have hod : 0 ≤ (realFns c).pow P.diff.ODReal 2 := by
    simp only [realFns, Real.rpow_two]
    positivity
  have hpa : 0 ≤ (realFns c).pow P.score.Accuracy (145 / 10 - max P.diff.ODReal 8 / 2) :=
    Real.rpow_nonneg hacc _
  have hpen : P.effectiveMissCount > 0 →
      0 ≤ calculateMissPenalty (realFns c) P P.effectiveMissCount :=
    fun h => calculateMissPenalty_nonneg c P _ h hm
  have hmeh : (P.score.CountMeh : ℝ) > (P.totalHits : ℝ) / 500 →
      0 ≤ (P.score.CountMeh : ℝ) - (P.totalHits : ℝ) / 500 := fun h => by linarith
  by_cases h0 : P.effectiveMissCount > 0 <;>
    by_cases h1 : (P.score.CountMeh : ℝ) > (P.totalHits : ℝ) / 500 <;>
    simp only [h0, h1, if_true, if_false] <;>
    (try have hp' := hpen h0) <;> (try have hq' := hmeh h1) <;>
    split_ifs <;> positivity

theorem computeAccuracyValue_nonneg (c : ℝ → ℝ) (P : PPv2 ℝ)
    (hn : 0 ≤ P.amountHitObjectsWithAccuracy) : 0 ≤ computeAccuracyValue (realFns c) P := by
  unfold computeAccuracyValue
  simp only [realFns]
  have hb : 0 ≤ betterAccuracyPercentage P ^ (24 : ℝ) :=
    Real.rpow_nonneg (betterAccuracyPercentage_nonneg P) _
  have hn' : (0 : ℝ) ≤ (P.amountHitObjectsWithAccuracy : ℝ) := by exact_mod_cast hn
  have hx : (0 : ℝ) ≤ (152163 / 100000 : ℝ) ^ P.diff.ODReal :=
    Real.rpow_nonneg (by norm_num) _
  have hs : (0 : ℝ) ≤ ((P.amountHitObjectsWithAccuracy : ℝ) / 1000) ^ ((3 : ℝ) / 10) :=
    Real.rpow_nonneg (by positivity) _
  have hmin : (0 : ℝ) ≤
      min (115 / 100) (((P.amountHitObjectsWithAccuracy : ℝ) / 1000) ^ ((3 : ℝ) / 10)) :=
    le_min (by norm_num) hs
  split_ifs <;> positivity

theorem accDepressionOf_pos {K : Type} [LinearOrderedField K] [FloorRing K] (E : MathFns K)
    (P : PPv2 K) : 0 < accDepressionOf E P := by
  unfold accDepressionOf
  split_ifs
  · exact lt_of_lt_of_le (by norm_num) (le_max_right _ _)
  · exact one_pos

/-- Under the stated conditions the effective miss count is at most the number of hits. -/
theorem effectiveMissCount_le_totalHits {K : Type} [LinearOrderedField K] [FloorRing K]
    (E : MathFns K) (pp : PPv2 K) (a : Attributes K) (s : PerfScore K) (d : Difficulty K)
    (hg : 0 ≤ s.CountGreat) (hok : 0 ≤ s.CountOk) (hmeh : 0 ≤ s.CountMeh)
    (hmiss : 0 ≤ s.CountMiss)
    (hmodern : classicFlag d = false →
      s.SliderBreaks + s.CountMiss ≤ s.CountGreat + s.CountOk + s.CountMeh + s.CountMiss) :
    (Calculate E pp a s d).1.effectiveMissCount ≤ ((Calculate E pp a s d).1.totalHits : K) := by
  simp only [Calculate_fst, prepare_eq, normalize_snd, normalize_fst, not_lt.mpr hg, if_false]
  unfold provisionalEstimate
  dsimp only
  have hT : (0 : K) ≤ ((s.CountGreat + s.CountOk + s.CountMeh + s.CountMiss : Int) : K) := by
    exact_mod_cast (by omega : 0 ≤ s.CountGreat + s.CountOk + s.CountMeh + s.CountMiss)
  have hCM : (s.CountMiss : K) ≤ ((s.CountGreat + s.CountOk + s.CountMeh + s.CountMiss : Int) : K) := by
    exact_mod_cast (by omega : s.CountMiss ≤ s.CountGreat + s.CountOk + s.CountMeh + s.CountMiss)
  have hI : ((s.CountOk + s.CountMeh + s.CountMiss : Int) : K) ≤
      ((s.CountGreat + s.CountOk + s.CountMeh + s.CountMiss : Int) : K) := by
    exact_mod_cast (by omega :
      s.CountOk + s.CountMeh + s.CountMiss ≤ s.CountGreat + s.CountOk + s.CountMeh + s.CountMiss)
  refine max_le hCM ?_
  by_cases hs : a.Sliders > 0
  · simp only [hs, if_true]
    cases hc : classicFlag d
    · simp only [Bool.false_eq_true, if_false]
      have hSB : ((s.SliderBreaks + s.CountMiss : Int) : K) ≤
          ((s.CountGreat + s.CountOk + s.CountMeh + s.CountMiss : Int) : K) := by
        exact_mod_cast hmodern hc
      exact le_trans (min_le_right _ _) hSB
    · simp only [if_true]
      exact le_trans (min_le_right _ _) hI
  · simp only [hs, if_false]
    exact hT

end Bounds

/-! ## Non-negativity of the result -/

section NonNeg

theorem state_attribs {K : Type} [LinearOrderedField K] [FloorRing K] (E : MathFns K)
    (pp : PPv2 K) (a : Attributes K) (s : PerfScore K) (d : Difficulty K) :
    (Calculate E pp a s d).1.attribs = { a with MaxCombo := max 1 a.MaxCombo } := by
  rw [Calculate_fst, prepare_eq, normalize_fst]

theorem state_diff {K : Type} [LinearOrderedField K] [FloorRing K] (E : MathFns K)
    (pp : PPv2 K) (a : Attributes K) (s : PerfScore K) (d : Difficulty K) :
    (Calculate E pp a s d).1.diff = d := by
  rw [Calculate_fst, prepare_eq]

theorem state_score {K : Type} [LinearOrderedField K] [FloorRing K] (E : MathFns K)
    (pp : PPv2 K) (a : Attributes K) (s : PerfScore K) (d : Difficulty K) :
    (Calculate E pp a s d).1.score = (Calculate.normalize a s).2 := by
  rw [Calculate_fst, prepare_eq]

theorem state_totalHits {K : Type} [LinearOrderedField K] [FloorRing K] (E : MathFns K)
    (pp : PPv2 K) (a : Attributes K) (s : PerfScore K) (d : Difficulty K)
    (hg : 0 ≤ s.CountGreat) :
    (Calculate E pp a s d).1.totalHits =
      s.CountGreat + s.CountOk + s.CountMeh + s.CountMiss := by
  simp only [Calculate_fst, prepare_eq, normalize_snd, not_lt.mpr hg, if_false]

theorem state_amount {K : Type} [LinearOrderedField K] [FloorRing K] (E : MathFns K)
    (pp : PPv2 K) (a : Attributes K) (s : PerfScore K) (d : Difficulty K) :
    (Calculate E pp a s d).1.amountHitObjectsWithAccuracy =
      if classicFlag d then a.Circles else a.Circles + a.Sliders := by
  rw [Calculate_fst, prepare_eq, normalize_fst]

/-- C4 (amended): for every valid input whose slider breaks plus misses do not exceed the number
of hits when the modern convention is in force, and whose spinner count does not exceed the number
of hits when Spin-out is active, with non-negative curve values at the aim and speed difficulty,
each of `Aim`, `Speed`, `Acc`, `Flashlight` and `Total` is non-negative. -/
theorem results_nonneg (c : ℝ → ℝ) (pp : PPv2 ℝ) (a : Attributes ℝ) (s : PerfScore ℝ)
    (d : Difficulty ℝ) (hv : ValidInput a s d) (hca : 0 ≤ c a.Aim) (hcs : 0 ≤ c a.Speed)
    (hmodern : classicFlag d = false →
      s.SliderBreaks + s.CountMiss ≤ s.CountGreat + s.CountOk + s.CountMeh + s.CountMiss)
    (hspin : d.Mods Modifier.SpunOut = true →
      a.Spinners ≤ s.CountGreat + s.CountOk + s.CountMeh + s.CountMiss) :
    0 ≤ (Calculate (realFns c) pp a s d).2.Aim ∧
      0 ≤ (Calculate (realFns c) pp a s d).2.Speed ∧
      0 ≤ (Calculate (realFns c) pp a s d).2.Acc ∧
      0 ≤ (Calculate (realFns c) pp a s d).2.Flashlight ∧
      0 ≤ (Calculate (realFns c) pp a s d).2.Total := by
  have hm := effectiveMissCount_le_totalHits (realFns c) pp a s d hv.great_nonneg hv.ok_nonneg
    hv.meh_nonneg hv.miss_nonneg hmodern
  have hTeq := state_totalHits (realFns c) pp a s d hv.great_nonneg
  have hT : 0 ≤ (Calculate (realFns c) pp a s d).1.totalHits := by
    rw [hTeq]
    have h1 := hv.great_nonneg
    have h2 := hv.ok_nonneg
    have h3 := hv.meh_nonneg
    have h4 := hv.miss_nonneg
    omega
  have hAR : (Calculate (realFns c) pp a s d).1.diff.ARReal ≤ 11 := by
    rw [state_diff]
    exact hv.ar_le
  have hacc : 0 ≤ (Calculate (realFns c) pp a s d).1.score.Accuracy := by
    rw [state_score, normalize_snd]
    exact hv.accuracy_nonneg
  have hn : 0 ≤ (Calculate (realFns c) pp a s d).1.amountHitObjectsWithAccuracy := by
    rw [state_amount]
    have h1 := hv.circles_nonneg
    have h2 := hv.sliders_nonneg
    split_ifs <;> omega
  have hAim0 : 0 ≤ computeAimValue (realFns c) (Calculate (realFns c) pp a s d).1 :=
    computeAimValue_nonneg c _ (by rw [state_attribs]; exact hca) hT hm hAR hacc
  have hAim : 0 ≤ (Calculate (realFns c) pp a s d).2.Aim := by
    rw [Calculate_Aim]
    have hdep := accDepressionOf_pos (realFns c) (Calculate (realFns c) pp a s d).1
    split_ifs
    · exact mul_nonneg hAim0 hdep.le
    · exact hAim0
  have hSpeed : 0 ≤ (Calculate (realFns c) pp a s d).2.Speed := by
    rw [Calculate_Speed]
    exact computeSpeedValue_nonneg c _ (by rw [state_attribs]; exact hcs) hT hm hAR hacc
  have hAcc : 0 ≤ (Calculate (realFns c) pp a s d).2.Acc := by
    rw [Calculate_Acc]
    exact computeAccuracyValue_nonneg c _ hn
  refine ⟨hAim, hSpeed, hAcc, le_of_eq (Calculate_Flashlight _ pp a s d).symm, ?_⟩
  rw [Calculate_Total]
  refine mul_nonneg (Real.rpow_nonneg (add_nonneg (add_nonneg (Real.rpow_nonneg hAim _)
    (Real.rpow_nonneg hSpeed _)) (Real.rpow_nonneg hAcc _)) _) ?_
  split_ifs with h
  · have hT0 : (0 : ℝ) < ((Calculate (realFns c) pp a s d).1.totalHits : ℝ) := by
      exact_mod_cast h.2
    have hS0 : (0 : ℝ) ≤ ((Calculate (realFns c) pp a s d).1.attribs.Spinners : ℝ) := by
      rw [state_attribs]
      exact_mod_cast hv.spinners_nonneg
    have hS1 : ((Calculate (realFns c) pp a s d).1.attribs.Spinners : ℝ) ≤
        ((Calculate (realFns c) pp a s d).1.totalHits : ℝ) := by
      rw [state_attribs, hTeq]
      exact_mod_cast hspin h.1
    have hq0 : 0 ≤ ((Calculate (realFns c) pp a s d).1.attribs.Spinners : ℝ) /
        ((Calculate (realFns c) pp a s d).1.totalHits : ℝ) := div_nonneg hS0 hT0.le
    have hq1 : ((Calculate (realFns c) pp a s d).1.attribs.Spinners : ℝ) /
        ((Calculate (realFns c) pp a s d).1.totalHits : ℝ) ≤ 1 := (div_le_one hT0).mpr hS1
    have hp : (realFns c).pow (((Calculate (realFns c) pp a s d).1.attribs.Spinners : ℝ) /
        ((Calculate (realFns c) pp a s d).1.totalHits : ℝ)) (85 / 100) ≤ 1 :=
      Real.rpow_le_one hq0 hq1 (by norm_num)
    have : 0 ≤ 1 - (realFns c).pow (((Calculate (realFns c) pp a s d).1.attribs.Spinners : ℝ) /
        ((Calculate (realFns c) pp a s d).1.totalHits : ℝ)) (85 / 100) := by linarith
    positivity
  · norm_num

theorem rpow_half_four : (4 : ℝ) ^ ((1 : ℝ) / 2) = 2 := by
  rw [show (4 : ℝ) = 2 ^ (2 : ℝ) by norm_num, ← Real.rpow_mul (by norm_num)]
  norm_num

theorem validInput_scenarioA :
    ValidInput (scenarioAAttribs : Attributes ℝ) scenarioAScore (scenarioADiff noMods) := by
  constructor <;> simp only [scenarioAAttribs, scenarioAScore, scenarioADiff] <;> norm_num

/-- C4 (witness): Scenario A. -/
theorem results_nonneg_witness :
    0 ≤ (Calculate (realFns id) freshPP scenarioAAttribs scenarioAScore
          (scenarioADiff noMods)).2.Aim ∧
      0 ≤ (Calculate (realFns id) freshPP scenarioAAttribs scenarioAScore
          (scenarioADiff noMods)).2.Speed ∧
      0 ≤ (Calculate (realFns id) freshPP scenarioAAttribs scenarioAScore
          (scenarioADiff noMods)).2.Acc ∧
      0 ≤ (Calculate (realFns id) freshPP scenarioAAttribs scenarioAScore
          (scenarioADiff noMods)).2.Flashlight ∧
      0 ≤ (Calculate (realFns id) freshPP scenarioAAttribs scenarioAScore
          (scenarioADiff noMods)).2.Total :=
  results_nonneg id freshPP scenarioAAttribs scenarioAScore (scenarioADiff noMods)
    validInput_scenarioA (by simp [scenarioAAttribs]) (by simp [scenarioAAttribs])
    (by decide) (by decide)

/-- C4 (counterexample): a valid input under the modern convention (Lazer active) with three hits
and twelve slider breaks, and a curve that is non-negative everywhere.  The effective miss count is
`min(100/1, 12) = 12`, the miss penalty is `0.97 * (1 - (4^0.5)^9) = 0.97 * (1 - 512)`, and `Aim` is
negative. -/
theorem aim_negative_of_tick_breaks :
    ValidInput (tickBreakAttribs : Attributes ℝ) tickBreakScore
        (scenarioADiff (onlyMod Modifier.Lazer)) ∧
      (∀ x : ℝ, 0 ≤ rampCurve x) ∧
      (Calculate (realFns rampCurve) freshPP tickBreakAttribs tickBreakScore
        (scenarioADiff (onlyMod Modifier.Lazer))).2.Aim < 0 := by
  refine ⟨?_, fun x => le_max_right _ _, ?_⟩
  · constructor <;> simp only [tickBreakAttribs, tickBreakScore, scenarioADiff] <;> norm_num
  · rw [Calculate_Aim]
    simp only [Calculate_fst, prepare_eq, normalize_fst, normalize_snd]
    unfold accDepressionOf computeAimValue lengthBonus approachRateFactor calculateMissPenalty
      provisionalEstimate
    simp only [tickBreakAttribs, tickBreakScore, scenarioADiff, onlyMod, classicFlag, realFns,
      rampCurve, Difficulty.ModsActive, Difficulty.CheckModActive, reduceCtorEq, decide_False, decide_True]
    rw [streamsNerfBelowExact_self _ (by norm_num)]
    norm_num
    rw [rpow_half_four]
    norm_num

end NonNeg

/-! ## The values of a score without hits -/

section Floor

theorem state_effectiveMissCount {K : Type} [LinearOrderedField K] [FloorRing K]
    (E : MathFns K) (pp : PPv2 K) (a : Attributes K) (s : PerfScore K) (d : Difficulty K) :
    (Calculate E pp a s d).1.effectiveMissCount =
      max (s.CountMiss : K)
        (provisionalEstimate (classicFlag d) (Calculate.normalize a s).1
          (Calculate.normalize a s).2 (a.Sliders - s.SliderEnd)) := by
  rw [Calculate_fst, prepare_eq, normalize_countMiss, normalize_snd, normalize_fst]

theorem computeAimValue_eq_zero {K : Type} [LinearOrderedField K] [FloorRing K] (E : MathFns K)
    (P : PPv2 K) (hc : E.curve P.attribs.Aim = 0) (hT : P.totalHits ≤ 200) :
    computeAimValue E P = 0 := by
  unfold computeAimValue
  dsimp only
  have h200 : ¬ P.totalHits > 200 := not_lt.mpr hT
  have h500 : ¬ P.totalHits > 500 := fun h => h200 (lt_trans (by norm_num) h)
  simp only [hc, h200, h500, if_false, zero_mul, ite_self]

theorem computeSpeedValue_eq_zero {K : Type} [LinearOrderedField K] [FloorRing K]
    (E : MathFns K) (P : PPv2 K) (hc : E.curve P.attribs.Speed = 0) :
    computeSpeedValue E P = 0 := by
  unfold computeSpeedValue
  dsimp only
  simp only [hc, zero_mul, ite_self]

theorem computeAccuracyValue_eq_zero (c : ℝ → ℝ) (P : PPv2 ℝ)
    (hn : P.amountHitObjectsWithAccuracy = 0) : computeAccuracyValue (realFns c) P = 0 := by
  unfold computeAccuracyValue
  rw [betterAccuracyPercentage_of_nonpos P (le_of_eq hn)]
  have h0 : (realFns c).pow 0 24 = 0 := Real.zero_rpow (by norm_num)
  simp only [h0, mul_zero, zero_mul, ite_self]

/-- C8 (counterexample): Scenario A's map with a score that has no hit results.  The total of
hits is 0, the accuracy-eligible count is 100, the better-accuracy percentage is
`((0 - (0 - 100)) * 6) / (100 * 6) = 1`, and both `Acc` and `Aim` are positive. -/
theorem zero_hits_acc_pos :
    (Calculate (realFns id) freshPP scenarioAAttribs emptyScore
        (scenarioADiff noMods)).1.totalHits = 0 ∧
      0 < (Calculate (realFns id) freshPP scenarioAAttribs emptyScore
        (scenarioADiff noMods)).2.Acc ∧
      0 < (Calculate (realFns id) freshPP scenarioAAttribs emptyScore
        (scenarioADiff noMods)).2.Aim := by
  refine ⟨?_, ?_, ?_⟩
  · rw [Calculate_fst, prepare_eq]
    decide
  · rw [Calculate_Acc]
    simp only [Calculate_fst, prepare_eq, normalize_fst, normalize_snd]
    unfold computeAccuracyValue betterAccuracyPercentage
    simp only [scenarioAAttribs, emptyScore, scenarioADiff, noMods, realFns, classicFlag,
      Difficulty.ModsActive, Difficulty.CheckModActive]
    norm_num
    positivity
  · rw [Calculate_Aim]
    simp only [Calculate_fst, prepare_eq, normalize_fst, normalize_snd]
    unfold accDepressionOf computeAimValue lengthBonus approachRateFactor calculateMissPenalty
      provisionalEstimate
    simp only [scenarioAAttribs, emptyScore, scenarioADiff, noMods, realFns, Difficulty.ModsActive,
      Difficulty.CheckModActive]
    rw [streamsNerfBelowExact_self _ (by norm_num)]
    norm_num

/-- C8 (amended): for every input with great, ok, meh and miss counts all zero, no slider breaks,
an accuracy-eligible count of zero and curve value zero at the aim and at the speed difficulty, the
effective miss count is 0 and the `Aim`, `Speed` and `Acc` values are all 0. -/
theorem zero_skill_floor (c : ℝ → ℝ) (pp : PPv2 ℝ) (a : Attributes ℝ) (s : PerfScore ℝ)
    (d : Difficulty ℝ) (hg : s.CountGreat = 0) (hok : s.CountOk = 0) (hmeh : s.CountMeh = 0)
    (hmiss : s.CountMiss = 0) (hsb : s.SliderBreaks = 0)
    (hn : (Calculate (realFns c) pp a s d).1.amountHitObjectsWithAccuracy = 0)
    (hca : c a.Aim = 0) (hcs : c a.Speed = 0) :
    (Calculate (realFns c) pp a s d).1.effectiveMissCount = 0 ∧
      (Calculate (realFns c) pp a s d).2.Aim = 0 ∧
      (Calculate (realFns c) pp a s d).2.Speed = 0 ∧
      (Calculate (realFns c) pp a s d).2.Acc = 0 := by
  have hT : (Calculate (realFns c) pp a s d).1.totalHits = 0 := by
    rw [state_totalHits _ pp a s d (le_of_eq hg.symm), hg, hok, hmeh, hmiss]
    rfl
  have hle := effectiveMissCount_le_totalHits (realFns c) pp a s d (le_of_eq hg.symm)
    (le_of_eq hok.symm) (le_of_eq hmeh.symm) (le_of_eq hmiss.symm)
    (fun _ => by omega)
  have hge : (s.CountMiss : ℝ) ≤ (Calculate (realFns c) pp a s d).1.effectiveMissCount := by
    rw [state_effectiveMissCount]
    exact le_max_left _ _
  have hm : (Calculate (realFns c) pp a s d).1.effectiveMissCount = 0 := by
    rw [hT] at hle
    rw [hmiss] at hge
    exact le_antisymm (by exact_mod_cast hle) (by exact_mod_cast hge)
  have hA : computeAimValue (realFns c) (Calculate (realFns c) pp a s d).1 = 0 :=
    computeAimValue_eq_zero _ _ (by rw [state_attribs]; exact hca) (by rw [hT]; norm_num)
  refine ⟨hm, ?_, ?_, ?_⟩
  · rw [Calculate_Aim, hA]
    simp only [zero_mul, ite_self]
  · rw [Calculate_Speed]
    exact computeSpeedValue_eq_zero _ _ (by rw [state_attribs]; exact hcs)
  · rw [Calculate_Acc]
    exact computeAccuracyValue_eq_zero c _ hn

/-- C8 (witness): a map with no objects and a score with no hit results. -/
theorem zero_skill_floor_witness :
    (Calculate (realFns id) freshPP zeroAttribs emptyScore
        (scenarioADiff noMods)).1.effectiveMissCount = 0 ∧
      (Calculate (realFns id) freshPP zeroAttribs emptyScore (scenarioADiff noMods)).2.Aim = 0 ∧
      (Calculate (realFns id) freshPP zeroAttribs emptyScore (scenarioADiff noMods)).2.Speed = 0 ∧
      (Calculate (realFns id) freshPP zeroAttribs emptyScore (scenarioADiff noMods)).2.Acc = 0 :=
  zero_skill_floor id freshPP zeroAttribs emptyScore (scenarioADiff noMods) rfl rfl rfl rfl rfl
    (by rw [state_amount]; decide) rfl rfl

end Floor

/-! ## Equal aim and speed difficulty -/

section Symmetry

/-- C10 (counterexample): Scenario A with the identity curve.  Both fields share the base
`5 * 0.9`; `Aim` carries `0.8 * (0.98 + 64/2500) * 0.86` and `Speed` carries `0.93 + 64/750`, so
`Aim < Speed`. -/
theorem scenarioA_aim_ne_speed :
    (Calculate (realFns id) freshPP scenarioAAttribs scenarioAScore (scenarioADiff noMods)).2.Aim ≠
      (Calculate (realFns id) freshPP scenarioAAttribs scenarioAScore
        (scenarioADiff noMods)).2.Speed := by
  apply ne_of_lt
  rw [Calculate_Aim, Calculate_Speed]
  simp only [Calculate_fst, prepare_eq, normalize_fst, normalize_snd]
  unfold accDepressionOf computeAimValue computeSpeedValue lengthBonus approachRateFactor
    calculateMissPenalty provisionalEstimate
  simp only [scenarioAAttribs, scenarioAScore, scenarioADiff, noMods, realFns,
    Difficulty.ModsActive, Difficulty.CheckModActive]
  rw [streamsNerfBelowExact_self _ (by norm_num)]
  norm_num

/-- C10 (amended): for a no-modifier play with ok = meh = miss = 0, accuracy 1 and a non-negative
great count on a slider-free map whose aim and speed difficulty are equal and non-zero, `Aim` and
`Speed` share the base `curve(aim) * lengthBonus * (1 + approachRateFactor * lengthBonus)`:
`Aim = base * (0.3 + 1/2) * (0.98 + OD^2/2500) * 0.86` and `Speed = base * (0.93 + OD^2/750)`. -/
theorem aim_speed_common_base (c : ℝ → ℝ) (pp : PPv2 ℝ) (a : Attributes ℝ) (s : PerfScore ℝ)
    (d : Difficulty ℝ) (hmods : ∀ m, d.Mods m = false) (hsl : a.Sliders = 0)
    (heq : a.Aim = a.Speed) (hne : a.Speed ≠ 0) (hg : 0 ≤ s.CountGreat) (hok : s.CountOk = 0)
    (hmeh : s.CountMeh = 0) (hmiss : s.CountMiss = 0) (hacc : s.Accuracy = 1) :
    (Calculate (realFns c) pp a s d).2.Aim =
        c a.Aim * lengthBonus (realFns c) (Calculate (realFns c) pp a s d).1 *
            (1 + approachRateFactor (Calculate (realFns c) pp a s d).1 *
              lengthBonus (realFns c) (Calculate (realFns c) pp a s d).1) *
          (3 / 10 + 1 / 2) * (98 / 100 + d.ODReal ^ (2 : ℝ) / 2500) * (86 / 100) ∧
      (Calculate (realFns c) pp a s d).2.Speed =
        c a.Aim * lengthBonus (realFns c) (Calculate (realFns c) pp a s d).1 *
            (1 + approachRateFactor (Calculate (realFns c) pp a s d).1 *
              lengthBonus (realFns c) (Calculate (realFns c) pp a s d).1) *
          (93 / 100 + d.ODReal ^ (2 : ℝ) / 750) := by
  have hT := state_totalHits (realFns c) pp a s d hg
  have hm : (Calculate (realFns c) pp a s d).1.effectiveMissCount = 0 := by
    rw [state_effectiveMissCount]
    unfold provisionalEstimate
    simp only [normalize_fst, hsl, hmiss, gt_iff_lt, lt_self_iff_false, if_false, Int.cast_zero,
      max_self]
  have hA := state_attribs (realFns c) pp a s d
  have hD := state_diff (realFns c) pp a s d
  have hS := state_score (realFns c) pp a s d
  have hdep : accDepressionOf (realFns c) (Calculate (realFns c) pp a s d).1 = 86 / 100 := by
    unfold accDepressionOf
    rw [hA, hS, normalize_snd]
    simp only [realFns, heq, streamsNerfBelowExact_self _ hne, hacc, if_true, sub_self, abs_zero,
      sub_zero]
    norm_num
  have hmeh' : ¬ (((Calculate (realFns c) pp a s d).1.score.CountMeh : ℝ) >
      ((Calculate (realFns c) pp a s d).1.totalHits : ℝ) / 500) := by
    rw [hS, normalize_snd, hT, hok, hmeh, hmiss]
    simp only [Int.cast_zero, add_zero, gt_iff_lt, not_lt]
    have : (0 : ℝ) ≤ (s.CountGreat : ℝ) := by exact_mod_cast hg
    positivity
  constructor
  · rw [Calculate_Aim, hdep]
    unfold computeAimValue
    simp only [hm, gt_iff_lt, lt_self_iff_false, if_false]
    rw [hA, hD, hS, normalize_snd]
    simp only [Difficulty.ModsActive, hmods, Bool.false_eq_true, if_false, hacc, heq, realFns,
      streamsNerfBelowExact_self _ hne]
    norm_num
  · rw [Calculate_Speed]
    unfold computeSpeedValue
    simp only [hm, hmeh', gt_iff_lt, lt_self_iff_false, if_false]
    rw [hA, hD, hS, normalize_snd]
    simp only [Difficulty.ModsActive, Difficulty.CheckModActive, hmods, Bool.false_eq_true,
      if_false, hacc, heq, realFns, Real.one_rpow, mul_one]

/-- C10 (witness): Scenario A with the identity curve. -/
theorem aim_speed_common_base_witness :
    (Calculate (realFns id) freshPP scenarioAAttribs scenarioAScore (scenarioADiff noMods)).2.Aim =
        id (scenarioAAttribs : Attributes ℝ).Aim *
              lengthBonus (realFns id)
                (Calculate (realFns id) freshPP scenarioAAttribs scenarioAScore
                  (scenarioADiff noMods)).1 *
            (1 + approachRateFactor
                (Calculate (realFns id) freshPP scenarioAAttribs scenarioAScore
                  (scenarioADiff noMods)).1 *
              lengthBonus (realFns id)
                (Calculate (realFns id) freshPP scenarioAAttribs scenarioAScore
                  (scenarioADiff noMods)).1) *
          (3 / 10 + 1 / 2) *
          (98 / 100 + (scenarioADiff noMods : Difficulty ℝ).ODReal ^ (2 : ℝ) / 2500) * (86 / 100) ∧
      (Calculate (realFns id) freshPP scenarioAAttribs scenarioAScore
          (scenarioADiff noMods)).2.Speed =
        id (scenarioAAttribs : Attributes ℝ).Aim *
              lengthBonus (realFns id)
                (Calculate (realFns id) freshPP scenarioAAttribs scenarioAScore
                  (scenarioADiff noMods)).1 *
            (1 + approachRateFactor
                (Calculate (realFns id) freshPP scenarioAAttribs scenarioAScore
                  (scenarioADiff noMods)).1 *
              lengthBonus (realFns id)
                (Calculate (realFns id) freshPP scenarioAAttribs scenarioAScore
                  (scenarioADiff noMods)).1) *
          (93 / 100 + (scenarioADiff noMods : Difficulty ℝ).ODReal ^ (2 : ℝ) / 750) :=
  aim_speed_common_base id freshPP scenarioAAttribs scenarioAScore (scenarioADiff noMods)
    (fun _ => rfl) rfl rfl (by simp [scenarioAAttribs]) (by decide) rfl rfl rfl rfl

end Symmetry

/-! ## The miss estimate in particular situations -/

section MissEstimate

variable {K : Type} [LinearOrderedField K] [FloorRing K]

/-- C13 (amended): for every input whose slider count is 0 or negative and whose recorded miss
count is non-negative, under either convention and for any achieved combo, the effective miss count
equals the recorded miss count `CountMiss`. -/
theorem effectiveMissCount_eq_countMiss_of_no_sliders (E : MathFns K) (pp : PPv2 K)
    (a : Attributes K) (s : PerfScore K) (d : Difficulty K) (hsl : a.Sliders ≤ 0)
    (hmiss : 0 ≤ s.CountMiss) :
    (Calculate E pp a s d).1.effectiveMissCount = (s.CountMiss : K) := by
  rw [state_effectiveMissCount]
  unfold provisionalEstimate
  have hs : ¬ (a.Sliders > 0) := not_lt.mpr hsl
  simp only [normalize_fst, hs, if_false]
  exact max_eq_left (by exact_mod_cast hmiss)

/-- C13 (witness): Scenario A gives 0 and Scenario B gives 5. -/
theorem effectiveMissCount_eq_countMiss_of_no_sliders_witness :
    (Calculate (realFns id) freshPP scenarioAAttribs scenarioAScore
        (scenarioADiff noMods)).1.effectiveMissCount = 0 ∧
      (Calculate (realFns id) freshPP scenarioAAttribs scenarioBScore
        (scenarioADiff noMods)).1.effectiveMissCount = 5 := by
  have hA := effectiveMissCount_eq_countMiss_of_no_sliders (realFns id) freshPP scenarioAAttribs
    scenarioAScore (scenarioADiff noMods) (by decide) (by decide)
  have hB := effectiveMissCount_eq_countMiss_of_no_sliders (realFns id) freshPP scenarioAAttribs
    scenarioBScore (scenarioADiff noMods) (by decide) (by decide)
  constructor
  · rw [hA]
    simp [scenarioAScore]
  · rw [hB]
    simp [scenarioBScore]

/-- C14: when the score's max combo is unset (negative), `Calculate` uses `max(1, attribs.MaxCombo)`
as the achieved combo, and for every such input with non-negative ok, meh, miss and slider-break
counts and `SliderEnd <= Sliders` the effective miss count equals the recorded miss count, under
both conventions. -/
theorem effectiveMissCount_of_unset_combo (E : MathFns K) (pp : PPv2 K) (a : Attributes K)
    (s : PerfScore K) (d : Difficulty K) (hcombo : s.MaxCombo < 0) (hok : 0 ≤ s.CountOk)
    (hmeh : 0 ≤ s.CountMeh) (hmiss : 0 ≤ s.CountMiss) (hsb : 0 ≤ s.SliderBreaks)
    (hse : s.SliderEnd ≤ a.Sliders) :
    (Calculate E pp a s d).1.score.MaxCombo = max 1 a.MaxCombo ∧
      (Calculate E pp a s d).1.effectiveMissCount = (s.CountMiss : K) := by
  constructor
  · rw [state_score, normalize_snd]
    simp only [hcombo, if_true]
  · rw [state_effectiveMissCount, normalize_snd, normalize_fst]
    unfold provisionalEstimate
    simp only [hcombo, if_true]
    have hCM : (0 : K) ≤ (s.CountMiss : K) := by exact_mod_cast hmiss
    have hI : (0 : K) ≤ ((s.CountOk + s.CountMeh + s.CountMiss : Int) : K) := by
      exact_mod_cast (by omega : 0 ≤ s.CountOk + s.CountMeh + s.CountMiss)
    have hB : (0 : K) ≤ ((s.SliderBreaks + s.CountMiss : Int) : K) := by
      exact_mod_cast (by omega : 0 ≤ s.SliderBreaks + s.CountMiss)
    by_cases hs : a.Sliders > 0
    · have hsK : (0 : K) < (a.Sliders : K) := by exact_mod_cast hs
      have h1 : ¬ (((max 1 a.MaxCombo : Int) : K) <
          ((max 1 a.MaxCombo : Int) : K) - 1 / 10 * (a.Sliders : K)) := by
        rw [not_lt]
        linarith
      have h2 : ¬ (((max 1 a.MaxCombo : Int) : K) <
          ((max 1 a.MaxCombo - (a.Sliders - s.SliderEnd) : Int) : K)) := by
        rw [not_lt]
        exact_mod_cast (by omega : max 1 a.MaxCombo - (a.Sliders - s.SliderEnd) ≤ max 1 a.MaxCombo)
      simp only [hs, h1, h2, if_true, if_false]
      cases classicFlag d
      · simp only [Bool.false_eq_true, if_false, min_eq_left hB]
        exact max_eq_left hCM
      · simp only [if_true, min_eq_left hI]
        exact max_eq_left hCM
    · simp only [hs, if_false]
      exact max_eq_left hCM

/-- C14 (witness): Scenario C's map under Lazer, with five misses and the combo left unset. -/
theorem effectiveMissCount_of_unset_combo_witness :
    (Calculate (realFns id) freshPP scenarioCAttribs
        { (scenarioBScore : PerfScore ℝ) with MaxCombo := -1 }
        (scenarioADiff (onlyMod Modifier.Lazer))).1.score.MaxCombo = 200 ∧
      (Calculate (realFns id) freshPP scenarioCAttribs
        { (scenarioBScore : PerfScore ℝ) with MaxCombo := -1 }
        (scenarioADiff (onlyMod Modifier.Lazer))).1.effectiveMissCount = 5 := by
  have h := effectiveMissCount_of_unset_combo (realFns id) freshPP scenarioCAttribs
    { (scenarioBScore : PerfScore ℝ) with MaxCombo := -1 }
    (scenarioADiff (onlyMod Modifier.Lazer)) (by decide) (by decide) (by decide) (by decide)
    (by decide) (by decide)
  constructor
  · rw [h.1]
    decide
  · rw [h.2]
    simp [scenarioBScore]

/-- C15: for every modifier set `Calculate` selects the classic convention as the specification
says (the Classic settings flag when Lazer and Classic are both active and the settings are
present, otherwise "Lazer is not active"), and the accuracy-eligible object count is `Circles` under
the classic convention and `Circles + Sliders` otherwise. -/
theorem convention_and_eligible_count (E : MathFns K) (pp : PPv2 K) (a : Attributes K)
    (s : PerfScore K) (d : Difficulty K) :
    (Calculate E pp a s d).1.usingClassicSliderAccuracy =
        specClassicConvention (d.Mods Modifier.Lazer) (d.Mods Modifier.Classic)
          d.classicConfig ∧
      (Calculate E pp a s d).1.amountHitObjectsWithAccuracy =
        specAccuracyEligibleCount (Calculate E pp a s d).1.usingClassicSliderAccuracy
          a.Circles a.Sliders := by
  constructor
  · rw [Calculate_fst, prepare_eq]
    unfold specClassicConvention classicFlag
    cases d.Mods Modifier.Lazer <;> cases d.Mods Modifier.Classic <;>
      cases d.classicConfig <;> rfl
  · rw [Calculate_fst, prepare_eq, normalize_fst]
    rfl

/-- C12 (counterexample): Scenario C under the classic convention with every hit great: 50
sliders, maximum combo 200, achieved combo 180 and no miss.  The estimate `195 / 180` is clamped to
the imperfect-hit count 0, and the effective miss count is 0. -/
theorem scenarioC_estimate_zero :
    (Calculate (realFns id) freshPP scenarioCAttribs (scenarioCScore 0)
        (scenarioADiff noMods)).1.usingClassicSliderAccuracy = true ∧
      (scenarioCScore 0 : PerfScore ℝ).MaxCombo = max 1 (scenarioCAttribs : Attributes ℝ).MaxCombo - 20 ∧
      ¬ (0 < (Calculate (realFns id) freshPP scenarioCAttribs (scenarioCScore 0)
        (scenarioADiff noMods)).1.effectiveMissCount) := by
  refine ⟨?_, by decide, ?_⟩
  · rw [Calculate_fst, prepare_eq]
    rfl
  · rw [state_effectiveMissCount, normalize_snd, normalize_fst]
    unfold provisionalEstimate
    simp only [scenarioCAttribs, scenarioCScore, scenarioADiff, noMods, classicFlag]
    norm_num

/-- C12 (amended): under the classic convention on a map with 50 sliders, for every score whose
achieved max combo is non-negative and equals the maximum combo minus 20, whose raw miss count is 0
and whose ok and meh counts sum to at least one, the provisional estimate after its clamp is
`min((maxCombo - 5) / max(1, combo), ok + meh)`, which is strictly positive, and so is the
effective miss count. -/
theorem estimate_pos_of_combo_shortfall (E : MathFns K) (pp : PPv2 K) (a : Attributes K)
    (s : PerfScore K) (d : Difficulty K)
    (hclassic : (Calculate E pp a s d).1.usingClassicSliderAccuracy = true)
    (hsl : a.Sliders = 50) (hcombo : s.MaxCombo = max 1 a.MaxCombo - 20)
    (hcombo0 : 0 ≤ s.MaxCombo) (hmiss : s.CountMiss = 0)
    (himp : 0 < s.CountOk + s.CountMeh) :
    (Calculate E pp a s d).1.effectiveMissCount =
        min ((((max 1 a.MaxCombo : Int) : K) - 5) / max 1 (s.MaxCombo : K))
          ((s.CountOk : K) + (s.CountMeh : K)) ∧
      0 < (Calculate E pp a s d).1.effectiveMissCount := by
  have hcl : classicFlag d = true := by
    rw [Calculate_fst, prepare_eq] at hclassic
    exact hclassic
  have hM : ((max 1 a.MaxCombo : Int) : K) = (s.MaxCombo : K) + 20 := by
    rw [hcombo]
    push_cast
    ring
  have hc0 : (0 : K) ≤ (s.MaxCombo : K) := by exact_mod_cast hcombo0
  have hlt : (s.MaxCombo : K) < ((max 1 a.MaxCombo : Int) : K) - 1 / 10 * ((50 : Int) : K) := by
    rw [hM]
    push_cast
    linarith
  have hden : (0 : K) < max 1 (s.MaxCombo : K) := lt_of_lt_of_le one_pos (le_max_left _ _)
  have hnum : (0 : K) < ((max 1 a.MaxCombo : Int) : K) - 5 := by
    rw [hM]
    linarith
  have himpK : (0 : K) < (s.CountOk : K) + (s.CountMeh : K) := by exact_mod_cast himp
  have hval : (Calculate E pp a s d).1.effectiveMissCount =
      min ((((max 1 a.MaxCombo : Int) : K) - 5) / max 1 (s.MaxCombo : K))
        ((s.CountOk : K) + (s.CountMeh : K)) := by
    rw [state_effectiveMissCount, normalize_snd, normalize_fst]
    unfold provisionalEstimate
    have hneg : ¬ s.MaxCombo < 0 := not_lt.mpr hcombo0
    simp only [hcl, hsl, hneg, hmiss, hlt, if_true, if_false, gt_iff_lt]
    have h50 : (0 : Int) < 50 := by decide
    simp only [h50, if_true]
    have hnum' := hnum
    push_cast at hnum' ⊢
    have h5 : (1 : K) / 10 * 50 = 5 := by norm_num
    rw [h5, add_zero]
    exact max_eq_right (le_min (div_nonneg hnum'.le hden.le) himpK.le)
  exact ⟨hval, by rw [hval]; exact lt_min (div_pos hnum hden) himpK⟩

/-- C12 (witness): Scenario C with two ok hits. -/
theorem estimate_pos_of_combo_shortfall_witness :
    0 < (Calculate (realFns id) freshPP scenarioCAttribs (scenarioCScore 2)
        (scenarioADiff noMods)).1.effectiveMissCount :=
  (estimate_pos_of_combo_shortfall (realFns id) freshPP scenarioCAttribs (scenarioCScore 2)
    (scenarioADiff noMods) (by rw [Calculate_fst, prepare_eq]; rfl) rfl (by decide) (by decide)
    rfl (by decide)).2

end MissEstimate

/-! ## The miss penalty and the accuracy-depression factor -/

section Penalty

theorem calculateMissPenalty_le (c : ℝ → ℝ) (P : PPv2 ℝ) (m : ℝ) (hm : 0 < m)
    (hmT : m ≤ (P.totalHits : ℝ)) : calculateMissPenalty (realFns c) P m ≤ 97 / 100 := by
  unfold calculateMissPenalty
  simp only [realFns]
  have hT : (0 : ℝ) < (P.totalHits : ℝ) := lt_of_lt_of_le hm hmT
  have hq0 : 0 ≤ m / (P.totalHits : ℝ) := by positivity
  have hp0 : 0 ≤ ((m / (P.totalHits : ℝ)) ^ ((1 : ℝ) / 2)) ^ (1 + m / (3 / 2)) :=
    Real.rpow_nonneg (Real.rpow_nonneg hq0 _) _
  linarith

theorem calculateMissPenalty_pos (c : ℝ → ℝ) (P : PPv2 ℝ) (m : ℝ) (hm : 0 < m)
    (hmT : m < (P.totalHits : ℝ)) : 0 < calculateMissPenalty (realFns c) P m := by
  unfold calculateMissPenalty
  simp only [realFns]
  have hT : (0 : ℝ) < (P.totalHits : ℝ) := lt_trans hm hmT
  have hq0 : 0 ≤ m / (P.totalHits : ℝ) := by positivity
  have hq1 : m / (P.totalHits : ℝ) < 1 := (div_lt_one hT).mpr hmT
  have hs0 : 0 ≤ (m / (P.totalHits : ℝ)) ^ ((1 : ℝ) / 2) := Real.rpow_nonneg hq0 _
  have hs1 : (m / (P.totalHits : ℝ)) ^ ((1 : ℝ) / 2) < 1 :=
    Real.rpow_lt_one hq0 hq1 (by norm_num)
  have he : 0 < 1 + m / (3 / 2) := by positivity
  have hp1 : ((m / (P.totalHits : ℝ)) ^ ((1 : ℝ) / 2)) ^ (1 + m / (3 / 2)) < 1 :=
    Real.rpow_lt_one hs0 hs1 he
  have : 0 < 1 - ((m / (P.totalHits : ℝ)) ^ ((1 : ℝ) / 2)) ^ (1 + m / (3 / 2)) := by linarith
  positivity

theorem calculateMissPenalty_all_missed (c : ℝ → ℝ) (P : PPv2 ℝ) (m : ℝ) (hm : 0 < m)
    (hmT : m = (P.totalHits : ℝ)) : calculateMissPenalty (realFns c) P m = 0 := by
  unfold calculateMissPenalty
  simp only [realFns]
  rw [← hmT, div_self (ne_of_gt hm), Real.one_rpow, Real.one_rpow]
  norm_num

/-- C17 (counterexample): on Scenario A's map, a score of one miss and nothing else.  `Calculate`
leaves effective miss count 1 and `totalHits` 1, so the penalty is called with `0 < m <= totalHits`,
and the factor is `0.97 * (1 - (1^0.5)^(1 + 1/1.5)) = 0`, outside `(0, 1]`. -/
theorem missPenalty_zero_when_all_missed :
    0 < (Calculate (realFns id) freshPP scenarioAAttribs
          { (emptyScore : PerfScore ℝ) with CountMiss := 1, Accuracy := 0 }
          (scenarioADiff noMods)).1.effectiveMissCount ∧
      (Calculate (realFns id) freshPP scenarioAAttribs
          { (emptyScore : PerfScore ℝ) with CountMiss := 1, Accuracy := 0 }
          (scenarioADiff noMods)).1.effectiveMissCount ≤
        ((Calculate (realFns id) freshPP scenarioAAttribs
          { (emptyScore : PerfScore ℝ) with CountMiss := 1, Accuracy := 0 }
          (scenarioADiff noMods)).1.totalHits : ℝ) ∧
      ¬ (0 < calculateMissPenalty (realFns id)
          (Calculate (realFns id) freshPP scenarioAAttribs
            { (emptyScore : PerfScore ℝ) with CountMiss := 1, Accuracy := 0 }
            (scenarioADiff noMods)).1
          (Calculate (realFns id) freshPP scenarioAAttribs
            { (emptyScore : PerfScore ℝ) with CountMiss := 1, Accuracy := 0 }
            (scenarioADiff noMods)).1.effectiveMissCount) := by
  have hm : (Calculate (realFns id) freshPP scenarioAAttribs
      { (emptyScore : PerfScore ℝ) with CountMiss := 1, Accuracy := 0 }
      (scenarioADiff noMods)).1.effectiveMissCount = 1 := by
    rw [state_effectiveMissCount, normalize_snd, normalize_fst]
    unfold provisionalEstimate
    simp only [scenarioAAttribs, emptyScore]
    norm_num
  have hT : (Calculate (realFns id) freshPP scenarioAAttribs
      { (emptyScore : PerfScore ℝ) with CountMiss := 1, Accuracy := 0 }
      (scenarioADiff noMods)).1.totalHits = 1 := by
    rw [state_totalHits _ _ _ _ _ (by decide)]
    decide
  refine ⟨by rw [hm]; exact one_pos, by rw [hm, hT]; norm_num, ?_⟩
  rw [calculateMissPenalty_all_missed id _ _ (by rw [hm]; exact one_pos) (by rw [hm, hT]; norm_num)]
  exact lt_irrefl _

/-- C17 (amended): for every effective miss count `m` that `Calculate` passes to
`calculateMissPenalty` with `0 < m <= totalHits`, the miss penalty factor lies in `[0, 0.97]`,
hence in `[0, 1]`; it is strictly positive when `m < totalHits` and exactly 0 when
`m = totalHits`. -/
theorem missPenalty_bounds (c : ℝ → ℝ) (pp : PPv2 ℝ) (a : Attributes ℝ) (s : PerfScore ℝ)
    (d : Difficulty ℝ) (hm : 0 < (Calculate (realFns c) pp a s d).1.effectiveMissCount)
    (hmT : (Calculate (realFns c) pp a s d).1.effectiveMissCount ≤
      ((Calculate (realFns c) pp a s d).1.totalHits : ℝ)) :
    0 ≤ calculateMissPenalty (realFns c) (Calculate (realFns c) pp a s d).1
          (Calculate (realFns c) pp a s d).1.effectiveMissCount ∧
      calculateMissPenalty (realFns c) (Calculate (realFns c) pp a s d).1
          (Calculate (realFns c) pp a s d).1.effectiveMissCount ≤ 97 / 100 ∧
      ((Calculate (realFns c) pp a s d).1.effectiveMissCount <
          ((Calculate (realFns c) pp a s d).1.totalHits : ℝ) →
        0 < calculateMissPenalty (realFns c) (Calculate (realFns c) pp a s d).1
          (Calculate (realFns c) pp a s d).1.effectiveMissCount) ∧
      ((Calculate (realFns c) pp a s d).1.effectiveMissCount =
          ((Calculate (realFns c) pp a s d).1.totalHits : ℝ) →
        calculateMissPenalty (realFns c) (Calculate (realFns c) pp a s d).1
          (Calculate (realFns c) pp a s d).1.effectiveMissCount = 0) :=
  ⟨calculateMissPenalty_nonneg c _ _ hm hmT, calculateMissPenalty_le c _ _ hm hmT,
    fun h => calculateMissPenalty_pos c _ _ hm h,
    fun h => calculateMissPenalty_all_missed c _ _ hm h⟩

/-- C17 (witness): Scenario B, five misses of a hundred hits. -/
theorem missPenalty_bounds_witness :
    0 ≤ calculateMissPenalty (realFns id)
          (Calculate (realFns id) freshPP scenarioAAttribs scenarioBScore
            (scenarioADiff noMods)).1
          (Calculate (realFns id) freshPP scenarioAAttribs scenarioBScore
            (scenarioADiff noMods)).1.effectiveMissCount ∧
      calculateMissPenalty (realFns id)
          (Calculate (realFns id) freshPP scenarioAAttribs scenarioBScore
            (scenarioADiff noMods)).1
          (Calculate (realFns id) freshPP scenarioAAttribs scenarioBScore
            (scenarioADiff noMods)).1.effectiveMissCount ≤ 97 / 100 := by
  have hm : (Calculate (realFns id) freshPP scenarioAAttribs scenarioBScore
      (scenarioADiff noMods)).1.effectiveMissCount = 5 := by
    rw [state_effectiveMissCount, normalize_snd, normalize_fst]
    unfold provisionalEstimate
    simp only [scenarioAAttribs, scenarioBScore]
    norm_num
  have hT : (Calculate (realFns id) freshPP scenarioAAttribs scenarioBScore
      (scenarioADiff noMods)).1.totalHits = 100 := by
    rw [state_totalHits _ _ _ _ _ (by decide)]
    decide
  have h := missPenalty_bounds id freshPP scenarioAAttribs scenarioBScore (scenarioADiff noMods)
    (by rw [hm]; norm_num) (by rw [hm, hT]; norm_num)
  exact ⟨h.1, h.2.1⟩

end Penalty

section Depression

variable {K : Type} [LinearOrderedField K] [FloorRing K]

/-- C18: for every score accuracy the factor `max(0.86 - |1 - accuracy|, 0.5)` lies in
`[0.5, 0.86]`, so it is positive; the factor `Calculate` uses is that value when the rounded
aim/speed ratio is below 1.09 and 1 otherwise, and `Aim` is the computed aim value times the factor
in the first case and the computed aim value unchanged in the second. -/
theorem accDepression_range_and_aim (E : MathFns K) (pp : PPv2 K) (a : Attributes K)
    (s : PerfScore K) (d : Difficulty K) :
    (1 / 2 ≤ specAccDepression true s.Accuracy ∧ specAccDepression true s.Accuracy ≤ 86 / 100) ∧
      accDepressionOf E (Calculate E pp a s d).1 =
        specAccDepression (E.streamsNerfBelow a.Aim a.Speed) s.Accuracy ∧
      (Calculate E pp a s d).2.Aim =
        if E.streamsNerfBelow a.Aim a.Speed then
          computeAimValue E (Calculate E pp a s d).1 * specAccDepression true s.Accuracy
        else computeAimValue E (Calculate E pp a s d).1 := by
  have hrange : 1 / 2 ≤ specAccDepression true s.Accuracy ∧
      specAccDepression true s.Accuracy ≤ 86 / 100 := by
    unfold specAccDepression
    simp only [if_true]
    refine ⟨le_max_right _ _, max_le ?_ (by norm_num)⟩
    have := abs_nonneg (1 - s.Accuracy)
    linarith
  have hdep : accDepressionOf E (Calculate E pp a s d).1 =
      specAccDepression (E.streamsNerfBelow a.Aim a.Speed) s.Accuracy := by
    unfold accDepressionOf specAccDepression
    rw [state_attribs, state_score, normalize_snd]
  refine ⟨hrange, hdep, ?_⟩
  rw [Calculate_Aim, hdep, state_attribs]
  cases hn : E.streamsNerfBelow a.Aim a.Speed
  · simp
  · have hpos : specAccDepression true s.Accuracy > 0 := lt_of_lt_of_le (by norm_num) hrange.1
    simp [hpos]

end Depression

/-! ## The classic convention and the all-perfect score -/

section ClassicChain

theorem provisionalEstimate_classic_le {K : Type} [LinearOrderedField K] (a : Attributes K)
    (s : PerfScore K) (dropped : Int) (hI : 0 ≤ s.CountOk + s.CountMeh + s.CountMiss) :
    provisionalEstimate true a s dropped ≤ ((s.CountOk + s.CountMeh + s.CountMiss : Int) : K) := by
  unfold provisionalEstimate
  by_cases hs : a.Sliders > 0
  · simp only [hs, if_true]
    exact min_le_right _ _
  · simp only [hs, if_false]
    exact_mod_cast hI

/-- C20: under the classic convention, for every input with non-negative great, ok, meh and miss
counts, `CountMiss <= effectiveMissCount <= totalImperfectHits <= totalHits`; hence, whenever the
miss penalty is applied (effective miss count positive), its base `missCount / totalHits` is at
most 1 and the penalty factor is not negative. -/
theorem classic_miss_count_chain (c : ℝ → ℝ) (pp : PPv2 ℝ) (a : Attributes ℝ) (s : PerfScore ℝ)
    (d : Difficulty ℝ)
    (hclassic : (Calculate (realFns c) pp a s d).1.usingClassicSliderAccuracy = true)
    (hg : 0 ≤ s.CountGreat) (hok : 0 ≤ s.CountOk) (hmeh : 0 ≤ s.CountMeh)
    (hmiss : 0 ≤ s.CountMiss) :
    (s.CountMiss : ℝ) ≤ (Calculate (realFns c) pp a s d).1.effectiveMissCount ∧
      (Calculate (realFns c) pp a s d).1.effectiveMissCount ≤
        ((Calculate (realFns c) pp a s d).1.totalImperfectHits : ℝ) ∧
      ((Calculate (realFns c) pp a s d).1.totalImperfectHits : ℝ) ≤
        ((Calculate (realFns c) pp a s d).1.totalHits : ℝ) ∧
      (0 < (Calculate (realFns c) pp a s d).1.effectiveMissCount →
        (Calculate (realFns c) pp a s d).1.effectiveMissCount /
            ((Calculate (realFns c) pp a s d).1.totalHits : ℝ) ≤ 1 ∧
          0 ≤ calculateMissPenalty (realFns c) (Calculate (realFns c) pp a s d).1
            (Calculate (realFns c) pp a s d).1.effectiveMissCount) := by
  have hcl : classicFlag d = true := by
    rw [Calculate_fst, prepare_eq] at hclassic
    exact hclassic
  have hI : (Calculate (realFns c) pp a s d).1.totalImperfectHits =
      s.CountOk + s.CountMeh + s.CountMiss := by
    rw [Calculate_fst, prepare_eq, normalize_snd]
  have hT := state_totalHits (realFns c) pp a s d hg
  have h1 : (s.CountMiss : ℝ) ≤ (Calculate (realFns c) pp a s d).1.effectiveMissCount := by
    rw [state_effectiveMissCount]
    exact le_max_left _ _
  have h2 : (Calculate (realFns c) pp a s d).1.effectiveMissCount ≤
      ((Calculate (realFns c) pp a s d).1.totalImperfectHits : ℝ) := by
    rw [state_effectiveMissCount, hI, hcl]
    refine max_le (by exact_mod_cast (by omega : s.CountMiss ≤ s.CountOk + s.CountMeh + s.CountMiss))
      ?_
    have h := provisionalEstimate_classic_le (Calculate.normalize a s).1
      (Calculate.normalize a s).2 (a.Sliders - s.SliderEnd)
      (by rw [normalize_snd]; simp only []; omega)
    rw [normalize_snd] at h ⊢
    exact h
  have h3 : ((Calculate (realFns c) pp a s d).1.totalImperfectHits : ℝ) ≤
      ((Calculate (realFns c) pp a s d).1.totalHits : ℝ) := by
    rw [hI, hT]
    exact_mod_cast (by omega :
      s.CountOk + s.CountMeh + s.CountMiss ≤ s.CountGreat + s.CountOk + s.CountMeh + s.CountMiss)
  refine ⟨h1, h2, h3, fun hpos => ?_⟩
  have hle := le_trans h2 h3
  have hTpos : (0 : ℝ) < ((Calculate (realFns c) pp a s d).1.totalHits : ℝ) :=
    lt_of_lt_of_le hpos hle
  exact ⟨(div_le_one hTpos).mpr hle, calculateMissPenalty_nonneg c _ _ hpos hle⟩

/-- C20 (witness): Scenario B. -/
theorem classic_miss_count_chain_witness :
    ((scenarioBScore : PerfScore ℝ).CountMiss : ℝ) ≤
        (Calculate (realFns id) freshPP scenarioAAttribs scenarioBScore
          (scenarioADiff noMods)).1.effectiveMissCount ∧
      (Calculate (realFns id) freshPP scenarioAAttribs scenarioBScore
          (scenarioADiff noMods)).1.effectiveMissCount ≤
        ((Calculate (realFns id) freshPP scenarioAAttribs scenarioBScore
          (scenarioADiff noMods)).1.totalImperfectHits : ℝ) ∧
      ((Calculate (realFns id) freshPP scenarioAAttribs scenarioBScore
          (scenarioADiff noMods)).1.totalImperfectHits : ℝ) ≤
        ((Calculate (realFns id) freshPP scenarioAAttribs scenarioBScore
          (scenarioADiff noMods)).1.totalHits : ℝ) := by
  have h := classic_miss_count_chain id freshPP scenarioAAttribs scenarioBScore
    (scenarioADiff noMods) (by rw [Calculate_fst, prepare_eq]; rfl) (by decide) (by decide)
    (by decide) (by decide)
  exact ⟨h.1, h.2.1, h.2.2.1⟩

end ClassicChain

section AllPerfect

theorem betterAccuracyPercentage_le_one {K : Type} [LinearOrderedField K] (P : PPv2 K)
    (hT : P.totalHits = P.score.CountGreat + P.score.CountOk + P.score.CountMeh +
      P.score.CountMiss)
    (hok : 0 ≤ P.score.CountOk) (hmeh : 0 ≤ P.score.CountMeh) (hmiss : 0 ≤ P.score.CountMiss) :
    betterAccuracyPercentage P ≤ 1 := by
  unfold betterAccuracyPercentage
  dsimp only
  by_cases hn : P.amountHitObjectsWithAccuracy > 0
  · simp only [hn, if_true]
    have h6 : (0 : K) < (P.amountHitObjectsWithAccuracy : K) * 6 := by
      have : (0 : K) < (P.amountHitObjectsWithAccuracy : K) := by exact_mod_cast hn
      linarith
    have hnum : (((P.score.CountGreat - (P.totalHits - P.amountHitObjectsWithAccuracy)) * 6 +
        P.score.CountOk * 2 + P.score.CountMeh : Int) : K) ≤
        (P.amountHitObjectsWithAccuracy : K) * 6 := by
      exact_mod_cast (by omega :
        (P.score.CountGreat - (P.totalHits - P.amountHitObjectsWithAccuracy)) * 6 +
          P.score.CountOk * 2 + P.score.CountMeh ≤ P.amountHitObjectsWithAccuracy * 6)
    have hdiv := (div_le_one h6).mpr hnum
    split_ifs
    · exact zero_le_one
    · exact hdiv
  · simp only [hn, if_false, lt_self_iff_false]
    exact zero_le_one

theorem betterAccuracyPercentage_all_perfect {K : Type} [LinearOrderedField K] (P : PPv2 K)
    (hT : P.totalHits = P.score.CountGreat) (hok : P.score.CountOk = 0)
    (hmeh : P.score.CountMeh = 0) (hn : 0 < P.amountHitObjectsWithAccuracy) :
    betterAccuracyPercentage P = 1 := by
  unfold betterAccuracyPercentage
  dsimp only
  have hn' : P.amountHitObjectsWithAccuracy > 0 := hn
  have h6 : (P.amountHitObjectsWithAccuracy : K) * 6 ≠ 0 := by
    have : (0 : K) < (P.amountHitObjectsWithAccuracy : K) := by exact_mod_cast hn
    exact ne_of_gt (by linarith)
  have hnum : (((P.score.CountGreat - (P.totalHits - P.amountHitObjectsWithAccuracy)) * 6 +
      P.score.CountOk * 2 + P.score.CountMeh : Int) : K) =
      (P.amountHitObjectsWithAccuracy : K) * 6 := by
    exact_mod_cast (by omega :
      (P.score.CountGreat - (P.totalHits - P.amountHitObjectsWithAccuracy)) * 6 +
        P.score.CountOk * 2 + P.score.CountMeh = P.amountHitObjectsWithAccuracy * 6)
  simp only [hn', if_true, hnum, div_self h6]
  norm_num

end AllPerfect

section AllPerfectScore

/-- C16: for fixed attributes and modifiers, the better-accuracy percentage lies in `[0, 1]` for
every score with non-negative hit counts and equals 1 for an all-perfect score (ok = meh = miss = 0)
whenever the accuracy-eligible count is positive, so every such score's `Acc` value is at most the
all-perfect score's `Acc` value. -/
theorem acc_le_all_perfect (c : ℝ → ℝ) (pp : PPv2 ℝ) (a : Attributes ℝ) (s p : PerfScore ℝ)
    (d : Difficulty ℝ) (hg : 0 ≤ s.CountGreat) (hok : 0 ≤ s.CountOk) (hmeh : 0 ≤ s.CountMeh)
    (hmiss : 0 ≤ s.CountMiss) (hpg : 0 ≤ p.CountGreat) (hpok : p.CountOk = 0)
    (hpmeh : p.CountMeh = 0) (hpmiss : p.CountMiss = 0) :
    (0 ≤ betterAccuracyPercentage (Calculate (realFns c) pp a s d).1 ∧
        betterAccuracyPercentage (Calculate (realFns c) pp a s d).1 ≤ 1) ∧
      (0 < (Calculate (realFns c) pp a p d).1.amountHitObjectsWithAccuracy →
        betterAccuracyPercentage (Calculate (realFns c) pp a p d).1 = 1) ∧
      (Calculate (realFns c) pp a s d).2.Acc ≤ (Calculate (realFns c) pp a p d).2.Acc := by
  have hsT := state_totalHits (realFns c) pp a s d hg
  have hpT := state_totalHits (realFns c) pp a p d hpg
  have hsS : (Calculate (realFns c) pp a s d).1.score =
      { s with MaxCombo := if s.MaxCombo < 0 then max 1 a.MaxCombo else s.MaxCombo } := by
    rw [state_score, normalize_snd]
    simp only [not_lt.mpr hg, if_false]
  have hpS : (Calculate (realFns c) pp a p d).1.score =
      { p with MaxCombo := if p.MaxCombo < 0 then max 1 a.MaxCombo else p.MaxCombo } := by
    rw [state_score, normalize_snd]
    simp only [not_lt.mpr hpg, if_false]
  have hle : betterAccuracyPercentage (Calculate (realFns c) pp a s d).1 ≤ 1 :=
    betterAccuracyPercentage_le_one _ (by rw [hsT, hsS]) (by rw [hsS]; exact hok)
      (by rw [hsS]; exact hmeh) (by rw [hsS]; exact hmiss)
  have hone : 0 < (Calculate (realFns c) pp a p d).1.amountHitObjectsWithAccuracy →
      betterAccuracyPercentage (Calculate (realFns c) pp a p d).1 = 1 := fun hn =>
    betterAccuracyPercentage_all_perfect _ (by rw [hpT, hpS, hpok, hpmeh, hpmiss]; simp)
      (by rw [hpS]; exact hpok) (by rw [hpS]; exact hpmeh) hn
  refine ⟨⟨betterAccuracyPercentage_nonneg _, hle⟩, hone, ?_⟩
  rw [Calculate_Acc, Calculate_Acc]
  have hnEq : (Calculate (realFns c) pp a s d).1.amountHitObjectsWithAccuracy =
      (Calculate (realFns c) pp a p d).1.amountHitObjectsWithAccuracy := by
    rw [state_amount, state_amount]
  refine computeAccuracyValue_le c _ _ (by rw [state_diff, state_diff]) hnEq ?_
  by_cases hn : 0 < (Calculate (realFns c) pp a p d).1.amountHitObjectsWithAccuracy
  · rw [hone hn]
    exact hle
  · rw [betterAccuracyPercentage_of_nonpos _ (hnEq ▸ not_lt.mp hn),
      betterAccuracyPercentage_of_nonpos _ (not_lt.mp hn)]

/-- C16 (witness): Scenario B against the all-perfect Scenario A. -/
theorem acc_le_all_perfect_witness :
    (Calculate (realFns id) freshPP scenarioAAttribs scenarioBScore (scenarioADiff noMods)).2.Acc ≤
      (Calculate (realFns id) freshPP scenarioAAttribs scenarioAScore
        (scenarioADiff noMods)).2.Acc :=
  (acc_le_all_perfect id freshPP scenarioAAttribs scenarioBScore scenarioAScore
    (scenarioADiff noMods) (by decide) (by decide) (by decide) (by decide) (by decide) rfl rfl
    rfl).2.2

end AllPerfectScore

/-! ## Misses on a slider-free map -/

section MissesLower

theorem lengthBonus_congr {K : Type} [LinearOrderedField K] (E : MathFns K) (P Q : PPv2 K)
    (h : P.totalHits = Q.totalHits) : lengthBonus E P = lengthBonus E Q := by
  unfold lengthBonus
  rw [h]

theorem approachRateFactor_congr {K : Type} [LinearOrderedField K] (P Q : PPv2 K)
    (h : P.diff = Q.diff) : approachRateFactor P = approachRateFactor Q := by
  unfold approachRateFactor
  rw [h]

theorem Calculate_Aim_mul {K : Type} [LinearOrderedField K] [FloorRing K] (E : MathFns K)
    (pp : PPv2 K) (a : Attributes K) (s : PerfScore K) (d : Difficulty K) :
    (Calculate E pp a s d).2.Aim =
      computeAimValue E (Calculate E pp a s d).1 * accDepressionOf E (Calculate E pp a s d).1 := by
  rw [Calculate_Aim]
  have hpos := accDepressionOf_pos E (Calculate E pp a s d).1
  by_cases hn : E.streamsNerfBelow (Calculate E pp a s d).1.attribs.Aim
      (Calculate E pp a s d).1.attribs.Speed = true
  · rw [if_pos ⟨hn, hpos⟩]
  · rw [if_neg (fun h => hn h.1)]
    have h1 : accDepressionOf E (Calculate E pp a s d).1 = 1 := by
      unfold accDepressionOf
      rw [if_neg hn]
    rw [h1, mul_one]

theorem computeAimValue_plain (c : ℝ → ℝ) (P : PPv2 ℝ) (hH : P.diff.Mods Modifier.Hidden = false)
    (hF : P.diff.Mods Modifier.Flashlight = false) :
    computeAimValue (realFns c) P =
      c P.attribs.Aim * lengthBonus (realFns c) P *
        (if P.effectiveMissCount > 0 then calculateMissPenalty (realFns c) P P.effectiveMissCount
          else 1) *
        (1 + approachRateFactor P * lengthBonus (realFns c) P) *
        (3 / 10 + P.score.Accuracy / 2) * (98 / 100 + P.diff.ODReal ^ (2 : ℝ) / 2500) := by
  unfold computeAimValue
  simp only [Difficulty.ModsActive, hH, hF, Bool.false_eq_true, if_false]
  split_ifs <;> simp only [realFns, mul_one]

theorem computeSpeedValue_plain (c : ℝ → ℝ) (P : PPv2 ℝ)
    (hR : P.diff.Mods Modifier.Relax = false) (hH : P.diff.Mods Modifier.Hidden = false)
    (hmeh : ¬ ((P.score.CountMeh : ℝ) > (P.totalHits : ℝ) / 500)) :
    computeSpeedValue (realFns c) P =
      c P.attribs.Speed * lengthBonus (realFns c) P *
        (if P.effectiveMissCount > 0 then calculateMissPenalty (realFns c) P P.effectiveMissCount
          else 1) *
        (1 + approachRateFactor P * lengthBonus (realFns c) P) *
        ((93 / 100 + P.diff.ODReal ^ (2 : ℝ) / 750) *
          P.score.Accuracy ^ (145 / 10 - max P.diff.ODReal 8 / 2)) := by
  unfold computeSpeedValue
  simp only [Difficulty.ModsActive, Difficulty.CheckModActive, hR, hH, hmeh, Bool.false_eq_true,
    if_false]
  split_ifs <;> simp only [realFns, mul_one]

theorem scaled_lt (X p f₁ d₁ f₀ d₀ : ℝ) (hX : 0 < X) (hp : p ≤ 97 / 100)
    (hf1 : 0 ≤ f₁) (hf : f₁ ≤ f₀) (hd1 : 0 ≤ d₁) (hd : d₁ ≤ d₀) (hf0 : 0 < f₀) (hd0 : 0 < d₀) :
    X * (p * f₁ * d₁) < X * (f₀ * d₀) := by
  have h1 : p * f₁ ≤ 97 / 100 * f₀ := mul_le_mul hp hf hf1 (by norm_num)
  have h2 : p * f₁ * d₁ ≤ 97 / 100 * f₀ * d₀ := mul_le_mul h1 hd hd1 (by positivity)
  have h3 : 97 / 100 * f₀ * d₀ < f₀ * d₀ := by nlinarith [mul_pos hf0 hd0]
  exact mul_lt_mul_of_pos_left (lt_of_le_of_lt h2 h3) hX

/-- C11 (amended): on a slider-free map with no modifiers, strictly positive aim and speed curve
values and overall difficulty at most 29, for every `k` with `1 <= k <= totalHits`, the play with
`k` of the all-perfect play's great hits turned into misses (same hit total, accuracy in `[0, 1]`,
so not above the all-perfect play's accuracy 1) gets a strictly lower `Aim` and a strictly lower
`Speed` than the all-perfect play. -/
theorem misses_lower_aim_and_speed (c : ℝ → ℝ) (pp : PPv2 ℝ) (a : Attributes ℝ)
    (s : PerfScore ℝ) (d : Difficulty ℝ) (T k : Int) (x : ℝ) (hmods : ∀ m, d.Mods m = false)
    (hsl : a.Sliders = 0) (hca : 0 < c a.Aim) (hcs : 0 < c a.Speed) (hk : 1 ≤ k) (hkT : k ≤ T)
    (hx0 : 0 ≤ x) (hx1 : x ≤ 1) (hod : d.ODReal ≤ 29) :
    (Calculate (realFns c) pp a
          { s with CountGreat := T - k, CountOk := 0, CountMeh := 0, CountMiss := k,
                   Accuracy := x } d).2.Aim <
        (Calculate (realFns c) pp a
          { s with CountGreat := T, CountOk := 0, CountMeh := 0, CountMiss := 0,
                   Accuracy := 1 } d).2.Aim ∧
      (Calculate (realFns c) pp a
          { s with CountGreat := T - k, CountOk := 0, CountMeh := 0, CountMiss := k,
                   Accuracy := x } d).2.Speed <
        (Calculate (realFns c) pp a
          { s with CountGreat := T, CountOk := 0, CountMeh := 0, CountMiss := 0,
                   Accuracy := 1 } d).2.Speed := by
  -- the two plays and the state `Calculate` leaves for each
  set s₁ : PerfScore ℝ :=
    { s with CountGreat := T - k, CountOk := 0, CountMeh := 0, CountMiss := k, Accuracy := x }
    with hs₁
  set s₀ : PerfScore ℝ :=
    { s with CountGreat := T, CountOk := 0, CountMeh := 0, CountMiss := 0, Accuracy := 1 }
    with hs₀
  have hT0 : (0 : Int) ≤ T := by omega
  have hTk : (0 : Int) ≤ T - k := by omega
  have hT₁ : (Calculate (realFns c) pp a s₁ d).1.totalHits = T := by
    rw [state_totalHits _ _ _ _ _ hTk]
    simp only [hs₁]
    omega
  have hT₀ : (Calculate (realFns c) pp a s₀ d).1.totalHits = T := by
    rw [state_totalHits _ _ _ _ _ hT0]
    simp only [hs₀]
    omega
  have hm₁ : (Calculate (realFns c) pp a s₁ d).1.effectiveMissCount = (k : ℝ) := by
    rw [state_effectiveMissCount]
    unfold provisionalEstimate
    simp only [normalize_fst, hsl, gt_iff_lt, lt_self_iff_false, if_false, hs₁]
    exact max_eq_left (by exact_mod_cast (by omega : (0 : Int) ≤ k))
  have hm₀ : (Calculate (realFns c) pp a s₀ d).1.effectiveMissCount = 0 := by
    rw [state_effectiveMissCount]
    unfold provisionalEstimate
    simp only [normalize_fst, hsl, gt_iff_lt, lt_self_iff_false, if_false, hs₀, Int.cast_zero,
      max_self]
  have hacc₁ : (Calculate (realFns c) pp a s₁ d).1.score.Accuracy = x := by
    rw [state_score, normalize_snd]
  have hacc₀ : (Calculate (realFns c) pp a s₀ d).1.score.Accuracy = 1 := by
    rw [state_score, normalize_snd]
  have hmeh₁ : (Calculate (realFns c) pp a s₁ d).1.score.CountMeh = 0 := by
    rw [state_score, normalize_snd]
  have hmeh₀ : (Calculate (realFns c) pp a s₀ d).1.score.CountMeh = 0 := by
    rw [state_score, normalize_snd]
  have hA₁ := state_attribs (realFns c) pp a s₁ d
  have hA₀ := state_attribs (realFns c) pp a s₀ d
  have hD₁ := state_diff (realFns c) pp a s₁ d
  have hD₀ := state_diff (realFns c) pp a s₀ d
  have hTpos : (0 : ℝ) < (T : ℝ) := by exact_mod_cast (by omega : (0 : Int) < T)
  have hkpos : (0 : ℝ) < (k : ℝ) := by exact_mod_cast (by omega : (0 : Int) < k)
  have hkle : (k : ℝ) ≤ (T : ℝ) := by exact_mod_cast hkT
  -- shared factors
  have hLB : lengthBonus (realFns c) (Calculate (realFns c) pp a s₁ d).1 =
      lengthBonus (realFns c) (Calculate (realFns c) pp a s₀ d).1 :=
    lengthBonus_congr _ _ _ (by rw [hT₁, hT₀])
  have hARF : approachRateFactor (Calculate (realFns c) pp a s₁ d).1 =
      approachRateFactor (Calculate (realFns c) pp a s₀ d).1 :=
    approachRateFactor_congr _ _ (by rw [hD₁, hD₀])
  have hL := lengthBonus_pos c (Calculate (realFns c) pp a s₀ d).1 (by rw [hT₀]; exact hT0)
  have hR := approachRateFactor_nonneg (Calculate (realFns c) pp a s₀ d).1
  have hpen1 := calculateMissPenalty_le c (Calculate (realFns c) pp a s₁ d).1 (k : ℝ) hkpos
    (by rw [hT₁]; exact hkle)
  have hmehc₁ : ¬ (((Calculate (realFns c) pp a s₁ d).1.score.CountMeh : ℝ) >
      ((Calculate (realFns c) pp a s₁ d).1.totalHits : ℝ) / 500) := by
    rw [hmeh₁, hT₁, Int.cast_zero, gt_iff_lt, not_lt]
    positivity
  have hmehc₀ : ¬ (((Calculate (realFns c) pp a s₀ d).1.score.CountMeh : ℝ) >
      ((Calculate (realFns c) pp a s₀ d).1.totalHits : ℝ) / 500) := by
    rw [hmeh₀, hT₀, Int.cast_zero, gt_iff_lt, not_lt]
    positivity
  -- the accuracy-depression factors
  have hdep₁ := accDepressionOf_pos (realFns c) (Calculate (realFns c) pp a s₁ d).1
  have hdep₀ := accDepressionOf_pos (realFns c) (Calculate (realFns c) pp a s₀ d).1
  have hdep : accDepressionOf (realFns c) (Calculate (realFns c) pp a s₁ d).1 ≤
      accDepressionOf (realFns c) (Calculate (realFns c) pp a s₀ d).1 := by
    unfold accDepressionOf
    rw [hA₁, hA₀, hacc₁, hacc₀]
    split_ifs
    · refine max_le ?_ (le_max_right _ _)
      refine le_trans ?_ (le_max_left _ _)
      have := abs_nonneg (1 - x)
      simp only [sub_self, abs_zero, sub_zero]
      linarith
    · exact le_refl _
  have hod2 : (0 : ℝ) ≤ d.ODReal ^ (2 : ℝ) := by
    rw [Real.rpow_two]
    positivity
  constructor
  · rw [Calculate_Aim_mul, Calculate_Aim_mul,
      computeAimValue_plain c _ (by rw [hD₁]; exact hmods _) (by rw [hD₁]; exact hmods _),
      computeAimValue_plain c _ (by rw [hD₀]; exact hmods _) (by rw [hD₀]; exact hmods _),
      hm₁, hm₀, hLB, hARF, hA₁, hA₀, hD₁, hD₀, hacc₁, hacc₀]
    simp only [hkpos, gt_iff_lt, if_true, lt_self_iff_false, if_false, mul_one]
    have hX : 0 < c a.Aim * lengthBonus (realFns c) (Calculate (realFns c) pp a s₀ d).1 *
        (1 + approachRateFactor (Calculate (realFns c) pp a s₀ d).1 *
          lengthBonus (realFns c) (Calculate (realFns c) pp a s₀ d).1) *
        (98 / 100 + d.ODReal ^ (2 : ℝ) / 2500) := by positivity
    have h := scaled_lt _ _ (3 / 10 + x / 2) _ (3 / 10 + 1 / 2) _ hX hpen1 (by positivity)
      (by linarith) hdep₁.le hdep (by norm_num) hdep₀
    calc _ = c a.Aim * lengthBonus (realFns c) (Calculate (realFns c) pp a s₀ d).1 *
              (1 + approachRateFactor (Calculate (realFns c) pp a s₀ d).1 *
                lengthBonus (realFns c) (Calculate (realFns c) pp a s₀ d).1) *
              (98 / 100 + d.ODReal ^ (2 : ℝ) / 2500) *
            (calculateMissPenalty (realFns c) (Calculate (realFns c) pp a s₁ d).1 (k : ℝ) *
              (3 / 10 + x / 2) * accDepressionOf (realFns c) (Calculate (realFns c) pp a s₁ d).1) := by ring
      _ < _ := h
      _ = _ := by ring
  · rw [Calculate_Speed, Calculate_Speed,
      computeSpeedValue_plain c _ (by rw [hD₁]; exact hmods _) (by rw [hD₁]; exact hmods _) hmehc₁,
      computeSpeedValue_plain c _ (by rw [hD₀]; exact hmods _) (by rw [hD₀]; exact hmods _) hmehc₀,
      hm₁, hm₀, hLB, hARF, hA₁, hA₀, hD₁, hD₀, hacc₁, hacc₀]
    simp only [hkpos, gt_iff_lt, if_true, lt_self_iff_false, if_false, mul_one, Real.one_rpow]
    have he : (0 : ℝ) ≤ 145 / 10 - max d.ODReal 8 / 2 := by
      have : max d.ODReal 8 ≤ 29 := max_le hod (by norm_num)
      linarith
    have hxe0 : 0 ≤ x ^ (145 / 10 - max d.ODReal 8 / 2) := Real.rpow_nonneg hx0 _
    have hxe1 : x ^ (145 / 10 - max d.ODReal 8 / 2) ≤ 1 := Real.rpow_le_one hx0 hx1 he
    have hX : 0 < c a.Speed * lengthBonus (realFns c) (Calculate (realFns c) pp a s₀ d).1 *
        (1 + approachRateFactor (Calculate (realFns c) pp a s₀ d).1 *
          lengthBonus (realFns c) (Calculate (realFns c) pp a s₀ d).1) *
        (93 / 100 + d.ODReal ^ (2 : ℝ) / 750) := by positivity
    have h := scaled_lt _ _ (x ^ (145 / 10 - max d.ODReal 8 / 2)) 1 1 1 hX hpen1 hxe0 hxe1
      zero_le_one (le_refl _) one_pos one_pos
    calc _ = c a.Speed * lengthBonus (realFns c) (Calculate (realFns c) pp a s₀ d).1 *
              (1 + approachRateFactor (Calculate (realFns c) pp a s₀ d).1 *
                lengthBonus (realFns c) (Calculate (realFns c) pp a s₀ d).1) *
              (93 / 100 + d.ODReal ^ (2 : ℝ) / 750) *
            (calculateMissPenalty (realFns c) (Calculate (realFns c) pp a s₁ d).1 (k : ℝ) *
              x ^ (145 / 10 - max d.ODReal 8 / 2) * 1) := by ring
      _ < _ := h
      _ = _ := by ring

/-- C11 (witness): Scenario B against Scenario A. -/
theorem misses_lower_aim_and_speed_witness :
    (Calculate (realFns id) freshPP scenarioAAttribs scenarioBScore (scenarioADiff noMods)).2.Aim <
        (Calculate (realFns id) freshPP scenarioAAttribs scenarioAScore
          (scenarioADiff noMods)).2.Aim ∧
      (Calculate (realFns id) freshPP scenarioAAttribs scenarioBScore
          (scenarioADiff noMods)).2.Speed <
        (Calculate (realFns id) freshPP scenarioAAttribs scenarioAScore
          (scenarioADiff noMods)).2.Speed :=
  misses_lower_aim_and_speed id freshPP scenarioAAttribs scenarioAScore (scenarioADiff noMods)
    100 5 (95 / 100) (fun _ => rfl) rfl (by simp [scenarioAAttribs]) (by simp [scenarioAAttribs])
    (by decide) (by decide) (by norm_num) (by norm_num) (by simp [scenarioADiff]; norm_num)

end MissesLower

/-! ## Divisions by zero -/

section ZeroDivisors

variable {K : Type} [LinearOrderedField K] [FloorRing K]

omit [FloorRing K] in
theorem checkedDiv_of_ne_zero (x y : K) (h : y ≠ 0) : checkedDiv x y = some (x / y) := by
  unfold checkedDiv
  rw [if_neg h]

omit [FloorRing K] in
theorem checkedDiv_zero (x : K) : checkedDiv x 0 = none := by
  unfold checkedDiv
  rw [if_pos rfl]

omit [FloorRing K] in
theorem calculateMissPenalty_checked (E : MathFns K) (P : PPv2 K) (m : K) :
    calculateMissPenalty.checked E P m =
      if (P.totalHits : K) = 0 then none else some (calculateMissPenalty E P m) := by
  unfold calculateMissPenalty.checked calculateMissPenalty checkedDiv
  split_ifs <;> rfl

omit [FloorRing K] in
theorem computeAimValue_checked (E : MathFns K) (P : PPv2 K) :
    computeAimValue.checked E P =
      if 0 < P.effectiveMissCount ∧ (P.totalHits : K) = 0 then none
      else some (computeAimValue E P) := by
  unfold computeAimValue.checked computeAimValue
  rw [calculateMissPenalty_checked]
  by_cases hm : P.effectiveMissCount > 0 <;> by_cases hT : (P.totalHits : K) = 0 <;>
    simp only [hm, hT, gt_iff_lt, if_true, if_false, true_and, false_and, and_true, and_false,
      Option.map_none', Option.map_some', not_true_eq_false, not_false_eq_true] <;>
    rfl

omit [FloorRing K] in
theorem computeSpeedValue_checked (E : MathFns K) (P : PPv2 K) :
    computeSpeedValue.checked E P =
      if P.diff.CheckModActive Modifier.Relax = false ∧ 0 < P.effectiveMissCount ∧
          (P.totalHits : K) = 0 then none
      else some (computeSpeedValue E P) := by
  unfold computeSpeedValue.checked computeSpeedValue
  rw [calculateMissPenalty_checked]
  cases hr : P.diff.CheckModActive Modifier.Relax <;>
    by_cases hm : P.effectiveMissCount > 0 <;> by_cases hT : (P.totalHits : K) = 0 <;>
    simp only [hm, hT, gt_iff_lt, if_true, if_false, true_and, false_and, and_true, and_false,
      Option.map_none', Option.map_some', not_true_eq_false, not_false_eq_true,
      Bool.false_eq_true, Bool.true_eq_false] <;>
    rfl

omit [FloorRing K] in
theorem computeAccuracyValue_checked (E : MathFns K) (P : PPv2 K) :
    computeAccuracyValue.checked E P = some (computeAccuracyValue E P) := by
  unfold computeAccuracyValue.checked betterAccuracyPercentage.checked computeAccuracyValue
    betterAccuracyPercentage
  by_cases hn : P.amountHitObjectsWithAccuracy > 0
  · have h6 : (P.amountHitObjectsWithAccuracy : K) * 6 ≠ 0 := by
      have : (0 : K) < (P.amountHitObjectsWithAccuracy : K) := by exact_mod_cast hn
      exact ne_of_gt (by linarith)
    simp only [hn, if_true, checkedDiv_of_ne_zero _ _ h6]
    rfl
  · simp only [hn, if_false]
    rfl

omit [FloorRing K] in
theorem estimateMisses_checked (P : PPv2 K) :
    Calculate.estimateMisses.checked P = some (Calculate.estimateMisses P) := by
  have hmax : ∀ x : K, max 1 x ≠ 0 := fun x =>
    ne_of_gt (lt_of_lt_of_le one_pos (le_max_left _ _))
  unfold Calculate.estimateMisses.checked Calculate.estimateMisses
    Calculate.estimateClassic.checked Calculate.estimateModern.checked
    Calculate.estimateClassic Calculate.estimateModern
  simp only [checkedDiv_of_ne_zero _ _ (hmax _), Option.map_some']
  by_cases hs : P.attribs.Sliders > 0
  · cases hc : P.usingClassicSliderAccuracy <;>
      simp only [hs, if_true, Bool.false_eq_true, if_false] <;> split_ifs <;> rfl
  · simp only [hs, if_false]
    rfl

theorem Calculate_checked_state (E : MathFns K) (pp : PPv2 K) (a : Attributes K)
    (s : PerfScore K) (d : Difficulty K) :
    Calculate.checked E pp a s d =
      if (Calculate E pp a s d).1.attribs.Speed = 0 ∨
          (0 < (Calculate E pp a s d).1.effectiveMissCount ∧
            ((Calculate E pp a s d).1.totalHits : K) = 0) then none
      else some (Calculate E pp a s d) := by
  have hP : Calculate.countAccuracyObjects
      (Calculate.estimateMisses
        (Calculate.storeInputs (Calculate.selectConvention pp d) (Calculate.normalize a s).1
          (Calculate.normalize a s).2 d)) (Calculate.normalize a s).1 =
      Calculate.prepare pp (Calculate.normalize a s).1 (Calculate.normalize a s).2 d := rfl
  unfold Calculate.checked
  simp only [estimateMisses_checked, computeAimValue_checked, computeSpeedValue_checked,
    computeAccuracyValue_checked, Option.bind_eq_bind, Option.some_bind, Option.pure_def, hP,
    Calculate_fst]
  unfold Calculate
  dsimp only
  generalize Calculate.prepare pp (Calculate.normalize a s).1 (Calculate.normalize a s).2 d = P
  have hspin : (d.ModsActive Modifier.SpunOut && decide (P.totalHits > 0)) = true →
      (P.totalHits : K) ≠ 0 := by
    intro h
    simp only [Bool.and_eq_true, decide_eq_true_eq] at h
    exact ne_of_gt (by exact_mod_cast h.2)
  by_cases hS : P.attribs.Speed = 0
  · simp only [hS, checkedDiv_zero, true_or, if_true, Option.none_bind]
    split_ifs <;> first | rfl | (cases Option.map _ _ <;> rfl)
  · rw [checkedDiv_of_ne_zero _ _ hS]
    by_cases hB : 0 < P.effectiveMissCount ∧ (P.totalHits : K) = 0
    · have hns : ¬ ((d.ModsActive Modifier.SpunOut && decide (P.totalHits > 0)) = true) :=
        fun h => hspin h hB.2
      simp only [hS, hB, hns, false_or, and_self, if_true, if_false, Option.some_bind,
        Option.none_bind, Bool.false_eq_true]
    · have hBS : ¬ (P.diff.CheckModActive Modifier.Relax = false ∧
          0 < P.effectiveMissCount ∧ (P.totalHits : K) = 0) := fun h => hB h.2
      by_cases hc : (d.ModsActive Modifier.SpunOut && decide (P.totalHits > 0)) = true
      · rw [if_pos hc, checkedDiv_of_ne_zero _ _ (hspin hc), if_neg hB, if_neg hBS,
          if_neg (not_or.mpr ⟨hS, hB⟩), if_pos hc]
        rfl
      · rw [if_neg hc, if_neg hB, if_neg hBS, if_neg (not_or.mpr ⟨hS, hB⟩), if_neg hc]
        rfl

end ZeroDivisors

/-! ## Inputs outside the usual ranges, and zero divisors -/

section OutsideDomain

theorem rpow_half_one_div_4 : ((1 : ℝ) / 4) ^ ((1 : ℝ) / 2) = 1 / 2 := by
  rw [show (1 : ℝ) / 4 = (1 / 2) ^ (2 : ℝ) by norm_num, ← Real.rpow_mul (by norm_num)]
  norm_num

/-- C11 (counterexample): a slider-free map of twelve circles, no modifiers, curve values
`id 5 = 5 > 0`, and `k = 3` misses of 12 hits.  With overall difficulty 31 and accuracy 1/2 the
exponent `14.5 - max(OD, 8)/2` is `-1`, the accuracy power is `(1/2)^(-1) = 2`, the miss penalty is
`0.97 * (1 - (1/2)^3)`, and `Speed` is not lower than the all-perfect play's.  With overall
difficulty 9 and accuracy `-2` the accuracy power is `(-2)^10 = 1024`, and again `Speed` is not
lower. -/
theorem speed_not_lower_outside_domain :
    ((0 : ℝ) < id (twelveCircles : Attributes ℝ).Aim ∧
        (0 : ℝ) < id (twelveCircles : Attributes ℝ).Speed ∧ (1 : Int) ≤ 3 ∧ (3 : Int) ≤ 12 ∧
        ((1 : ℝ) / 2 ≤ 1) ∧ ((-2 : ℝ) ≤ 1)) ∧
      ¬ ((Calculate (realFns id) freshPP twelveCircles (twelveScore 3 (1 / 2))
            (plainDiff 31)).2.Speed <
          (Calculate (realFns id) freshPP twelveCircles (twelveScore 0 1)
            (plainDiff 31)).2.Speed) ∧
      ¬ ((Calculate (realFns id) freshPP twelveCircles (twelveScore 3 (-2))
            (plainDiff 9)).2.Speed <
          (Calculate (realFns id) freshPP twelveCircles (twelveScore 0 1)
            (plainDiff 9)).2.Speed) := by
  refine ⟨⟨?_, ?_, by decide, by decide, by norm_num, by norm_num⟩, ?_, ?_⟩
  · simp [twelveCircles]
  · simp [twelveCircles]
  · rw [Calculate_Speed, Calculate_Speed]
    simp only [Calculate_fst, prepare_eq, normalize_fst, normalize_snd]
    unfold computeSpeedValue lengthBonus approachRateFactor calculateMissPenalty
      provisionalEstimate
    simp only [twelveCircles, twelveScore, plainDiff, noMods, realFns, Difficulty.ModsActive,
      Difficulty.CheckModActive]
    norm_num
    rw [rpow_half_one_div_4]
    norm_num
  · rw [Calculate_Speed, Calculate_Speed]
    simp only [Calculate_fst, prepare_eq, normalize_fst, normalize_snd]
    unfold computeSpeedValue lengthBonus approachRateFactor calculateMissPenalty
      provisionalEstimate
    simp only [twelveCircles, twelveScore, plainDiff, noMods, realFns, Difficulty.ModsActive,
      Difficulty.CheckModActive]
    norm_num
    rw [rpow_half_one_div_4]
    norm_num

/-- C13 (counterexample): Scenario A's slider-free map with a recorded miss count of `-1`: the
effective miss count is `max(-1, 0) = 0`, not the recorded miss count. -/
theorem effectiveMissCount_ne_negative_countMiss :
    (scenarioAAttribs : Attributes ℝ).Sliders ≤ 0 ∧
      (Calculate (realFns id) freshPP scenarioAAttribs
          { (scenarioAScore : PerfScore ℝ) with CountMiss := -1 }
          (scenarioADiff noMods)).1.effectiveMissCount ≠
        (({ (scenarioAScore : PerfScore ℝ) with CountMiss := -1 } : PerfScore ℝ).CountMiss : ℝ) := by
  refine ⟨by decide, ?_⟩
  rw [state_effectiveMissCount, normalize_snd, normalize_fst]
  unfold provisionalEstimate
  simp only [scenarioAAttribs, scenarioAScore]
  norm_num

section Generic

variable {K : Type} [LinearOrderedField K] [FloorRing K]

/-- C19 (amended): for every input (those with non-negative counts and attributes included),
`Calculate` evaluates no division with a zero divisor if and only if the speed difficulty is
non-zero and `totalHits` is non-zero whenever the effective miss count is positive; otherwise a
division has a zero divisor.  The combo divisor `max(1, achievedCombo)`, `totalHits` in the
spin-out term and `6 * accuracy-eligible count` are never zero when reached; the divisors that can
be zero are the speed difficulty in the aim/speed ratio and `totalHits` in the miss penalty. -/
theorem no_zero_divisor_iff (E : MathFns K) (pp : PPv2 K) (a : Attributes K) (s : PerfScore K)
    (d : Difficulty K) :
    (Calculate.checked E pp a s d = some (Calculate E pp a s d) ↔
        a.Speed ≠ 0 ∧ ¬ (0 < (Calculate E pp a s d).1.effectiveMissCount ∧
          ((Calculate E pp a s d).1.totalHits : K) = 0)) ∧
      (Calculate.checked E pp a s d = none ↔
        a.Speed = 0 ∨ (0 < (Calculate E pp a s d).1.effectiveMissCount ∧
          ((Calculate E pp a s d).1.totalHits : K) = 0)) ∧
      (∀ P : PPv2 K, Calculate.estimateMisses.checked P = some (Calculate.estimateMisses P)) ∧
      ((d.ModsActive Modifier.SpunOut && decide ((Calculate E pp a s d).1.totalHits > 0)) = true →
        ((Calculate E pp a s d).1.totalHits : K) ≠ 0) ∧
      (∀ P : PPv2 K, computeAccuracyValue.checked E P = some (computeAccuracyValue E P)) := by
  have hSp : (Calculate E pp a s d).1.attribs.Speed = a.Speed := by rw [state_attribs]
  have hspin : (d.ModsActive Modifier.SpunOut &&
      decide ((Calculate E pp a s d).1.totalHits > 0)) = true →
      ((Calculate E pp a s d).1.totalHits : K) ≠ 0 := by
    intro h
    simp only [Bool.and_eq_true, decide_eq_true_eq] at h
    exact ne_of_gt (by exact_mod_cast h.2)
  refine ⟨?_, ?_, estimateMisses_checked, hspin, computeAccuracyValue_checked E⟩
  · rw [Calculate_checked_state, hSp]
    by_cases h : a.Speed = 0 ∨ (0 < (Calculate E pp a s d).1.effectiveMissCount ∧
        ((Calculate E pp a s d).1.totalHits : K) = 0)
    · rw [if_pos h]
      refine ⟨fun h' => absurd h' (by simp), fun h' => ?_⟩
      rcases h with h | h
      · exact absurd h h'.1
      · exact absurd h h'.2
    · rw [if_neg h]
      rw [not_or] at h
      exact ⟨fun _ => h, fun _ => rfl⟩
  · rw [Calculate_checked_state, hSp]
    by_cases h : a.Speed = 0 ∨ (0 < (Calculate E pp a s d).1.effectiveMissCount ∧
        ((Calculate E pp a s d).1.totalHits : K) = 0)
    · rw [if_pos h]
      exact ⟨fun _ => h, fun _ => rfl⟩
    · rw [if_neg h]
      exact ⟨fun h' => absurd h' (by simp), fun h' => absurd h' h⟩

end Generic

/-- C19 (counterexample): two inputs with non-negative counts and attributes on which a division
has a zero divisor.  On a map with every attribute zero and a score without hit results, line 108
divides the aim difficulty by the speed difficulty 0.  Under Lazer, on a map with one slider and
maximum combo 100, a score with no hit results and two slider breaks has effective miss count
`min(99/1, 2) = 2` and `totalHits = 0`, and the miss penalty divides by `totalHits`. -/
theorem zero_divisor_reached :
    ((0 : ℝ) ≤ (zeroAttribs : Attributes ℝ).Aim ∧ (0 : ℝ) ≤ (zeroAttribs : Attributes ℝ).Speed ∧
        (0 : ℝ) ≤ (zeroAttribs : Attributes ℝ).Flashlight ∧
        (0 : ℝ) ≤ (tickBreakAttribs : Attributes ℝ).Aim ∧
        (0 : ℝ) ≤ (tickBreakAttribs : Attributes ℝ).Speed ∧
        (0 : ℝ) ≤ (tickBreakAttribs : Attributes ℝ).Flashlight) ∧
      (0 ≤ (emptyScore : PerfScore ℝ).CountGreat ∧ 0 ≤ (emptyScore : PerfScore ℝ).CountOk ∧
        0 ≤ (emptyScore : PerfScore ℝ).CountMeh ∧ 0 ≤ (emptyScore : PerfScore ℝ).CountMiss ∧
        0 ≤ (emptyScore : PerfScore ℝ).SliderEnd ∧ 0 ≤ (emptyScore : PerfScore ℝ).SliderBreaks) ∧
      Calculate.checked (realFns id) freshPP zeroAttribs emptyScore (scenarioADiff noMods) = none ∧
      Calculate.checked (realFns id) freshPP tickBreakAttribs
          { (emptyScore : PerfScore ℝ) with SliderBreaks := 2 }
          (scenarioADiff (onlyMod Modifier.Lazer)) = none := by
  refine ⟨?_, by decide, ?_, ?_⟩
  · simp [zeroAttribs, tickBreakAttribs]
  · rw [Calculate_checked_state, if_pos]
    left
    rw [state_attribs]
    rfl
  · rw [Calculate_checked_state, if_pos]
    right
    constructor
    · rw [state_effectiveMissCount, normalize_snd, normalize_fst]
      unfold provisionalEstimate
      simp only [tickBreakAttribs, emptyScore, scenarioADiff, onlyMod, classicFlag, reduceCtorEq,
        decide_False, decide_True]
      norm_num
    · rw [state_totalHits _ _ _ _ _ (by decide)]
      simp [emptyScore]

end OutsideDomain

end PP241007
